import Mathlib

/-!
# Live video face tracking: detector result parsing and the detect/track loop

A shallow embedding of `face_detector.cpp`, `base_detector.cpp` and the main loop of
`main.cpp`.

Modelling conventions
* `float` / `double` values are rationals (`ℚ`); NaN, infinities and overflow are outside
  the model. Comparisons are exact. The `float` operations of the pixel box, of the
  forward-backward test, of the mean position and of the box update round to binary32
  (nearest, ties to even: `fl32`), one rounding per operation. The product with the
  enlarge coefficient is taken exactly, with 1.2 as 6/5.
* The overload that the unqualified call `abs(...)` of `main.cpp` resolves to depends on
  headers that are not part of the sources: it is a parameter (`AbsOverload`).
* The implicit C++ conversion `float → int` is truncation toward zero (`truncQ`);
  `int / int` is `Int.tdiv`.
* `int` values are mathematical integers (`Int`); the ranges in which the machine
  representation matters are stated as hypotheses where they are needed.
* `cv::Mat` is a value (`Mat`): an abstract pixel-content identifier together with its
  size; buffer sharing between `cv::Mat` headers is not modelled.
* The inference backend, the video source and the OpenCV routines are external
  collaborators: their answers are parameters (`Env`), the calls made to the backend
  are recorded in the ghost field `FaceDetector.calls`.
-/

namespace FaceTracking

/-! ## Basic data -/

/-- Truncation toward zero: the C++ conversion from a floating value to `int`. -/
def truncQ (q : ℚ) : Int := Int.tdiv q.num (q.den : Int)

/-- The fraction `n / d` (`d > 0`) rounded to the nearest integer, ties to even. -/
def roundHalfEven (n d : Nat) : Nat :=
  let q := n / d
  let r := n % d
  if 2 * r < d then q
  else if d < 2 * r then q + 1
  else if q % 2 = 0 then q else q + 1

/-- The number of halvings that bring `n` below 2 (the binary logarithm of `n >= 1`,
rounded down); `fuel` bounds the recursion and `fuel = n` is enough. -/
def log2Fuel : Nat → Nat → Nat
  | 0, _ => 0
  | fuel + 1, n => if n < 2 then 0 else log2Fuel fuel (n / 2) + 1

/-- The binary32 exponent of the positive fraction `n / d`: the `e` with
`2 ^ e <= n / d < 2 ^ (e + 1)`, or -126 (subnormal range) when that is larger. -/
def binExponent (n d : Nat) : Int :=
  let k : Int := (log2Fuel n n : Int) - (log2Fuel d d : Int)
  let below : Bool :=
    if 0 ≤ k then decide (n < d * 2 ^ k.toNat) else decide (n * 2 ^ (-k).toNat < d)
  let e := if below then k - 1 else k
  max e (-126)

/-- Rounding to binary32: the nearest multiple of `2 ^ (e - 23)`, ties to even, `e`
being the binary32 exponent of the value. Overflow to infinity is not modelled. -/
def fl32 (q : ℚ) : ℚ :=
  if q = 0 then 0
  else
    let n := q.num.natAbs
    let d := q.den
    let s := binExponent n d - 23
    let mag : ℚ :=
      if 0 ≤ s then ((roundHalfEven n (d * 2 ^ s.toNat) * 2 ^ s.toNat : Nat) : ℚ)
      else ((roundHalfEven (n * 2 ^ (-s).toNat) d : Nat) : ℚ) / ((2 ^ (-s).toNat : Nat) : ℚ)
    if q < 0 then -mag else mag

/-- The overloads an unqualified `abs(float)` can resolve to: a floating-point one
(`std::abs(float)`, `std::abs(double)`) or the C function `int abs(int)`. -/
inductive AbsOverload where
  | floatAbs
  | intAbs
  deriving DecidableEq, Repr

/-- The value of `abs(v)` for a `float` argument `v`, assigned to a `float`: with the
`int` overload the argument is first converted to `int` and the `int` result is
converted back. -/
def absValue (o : AbsOverload) (v : ℚ) : ℚ :=
  match o with
  | AbsOverload.floatAbs => |v|
  | AbsOverload.intAbs => fl32 ((|truncQ v| : Int) : ℚ)

/-- A `cv::Mat` frame, by value: `data` identifies the pixel content. -/
structure Mat where
  data : Nat
  cols : Nat
  rows : Nat
  deriving DecidableEq, Repr

/-- The default-constructed (empty) `cv::Mat()`. -/
def Mat.empty : Mat := ⟨0, 0, 0⟩

/-- A `cv::Rect` (integer pixel rectangle). -/
structure Rect where
  x : Int
  y : Int
  width : Int
  height : Int
  deriving DecidableEq, Repr

/-- A `cv::Point2f`. -/
structure Point2f where
  x : ℚ
  y : ℚ
  deriving DecidableEq, Repr

/-- The `InferenceEngine::StatusCode` enumeration of the backend API. -/
inductive StatusCode where
  | OK
  | GENERAL_ERROR
  | NOT_IMPLEMENTED
  | NETWORK_NOT_LOADED
  | PARAMETER_MISMATCH
  | NOT_FOUND
  | OUT_OF_BOUNDS
  | UNEXPECTED
  | REQUEST_BUSY
  | RESULT_NOT_READY
  | NOT_ALLOCATED
  | INFER_NOT_STARTED
  deriving DecidableEq, Repr

/-- `FaceDetector::Result`. -/
structure Result where
  label : Int
  confidence : ℚ
  location : Rect
  deriving DecidableEq, Repr

/-- The backend's `InferRequest` slot: the frame copied into the input blob and the
flat `float` buffer of the output blob. -/
structure InferRequest where
  inputBlob : Mat
  outputBlob : List ℚ
  deriving DecidableEq, Repr

/-- A call made to the inference backend (ghost record). -/
inductive BackendCall where
  | StartAsync (input : Mat)
  | Infer (input : Mat)
  | WaitStatusOnly (answer : StatusCode)
  | WaitResultReady
  deriving DecidableEq, Repr

/-- The fields of `BaseDetector` and `FaceDetector` that the modelled code reads or
writes; `calls` is the ghost record of backend calls. -/
structure FaceDetector where
  request : Option InferRequest
  pathToModel : String
  isAsync : Bool
  enablingChecked : Bool
  _enabled : Bool
  detectionThreshold : ℚ
  doRawOutputMessages : Bool
  maxProposalCount : Int
  objectSize : Int
  enquedFrames : Int
  width : ℚ
  height : ℚ
  bb_enlarge_coefficient : ℚ
  resultsFetched : Bool
  labels : List String
  results : List Result
  calls : List BackendCall
  deriving DecidableEq

/-! ## `base_detector.cpp` -/

/-- `BaseDetector::enabled`: the value returned. -/
def FaceDetector.enabled (d : FaceDetector) : Bool :=
  if d.enablingChecked then d._enabled else !d.pathToModel.isEmpty

/-- `BaseDetector::enabled`: the effect on the cached flags. -/
def FaceDetector.enabledState (d : FaceDetector) : FaceDetector :=
  if d.enablingChecked then d
  else { d with _enabled := !d.pathToModel.isEmpty, enablingChecked := true }

/-- `BaseDetector::submitRequest`; `infer` is the network's output buffer for an input
frame, made available in the request's output blob. -/
def BaseDetector.submitRequest (infer : Mat → List ℚ) (d : FaceDetector) : FaceDetector :=
  let d1 := d.enabledState
  if !d.enabled then d1
  else
    match d1.request with
    | none => d1
    | some rq =>
      if d1.isAsync then
        { d1 with request := some { rq with outputBlob := infer rq.inputBlob },
                  calls := d1.calls ++ [BackendCall.StartAsync rq.inputBlob] }
      else
        { d1 with request := some { rq with outputBlob := infer rq.inputBlob },
                  calls := d1.calls ++ [BackendCall.Infer rq.inputBlob] }

/-- `BaseDetector::wait`. -/
def FaceDetector.wait (d : FaceDetector) : FaceDetector :=
  let d1 := d.enabledState
  if !d.enabled || d1.request.isNone || !d1.isAsync then d1
  else { d1 with calls := d1.calls ++ [BackendCall.WaitResultReady] }

/-- `BaseDetector::status`; `answer` is what the backend's
`Wait(STATUS_ONLY)` returns if it is asked. -/
def FaceDetector.status (answer : StatusCode) (d : FaceDetector) : StatusCode × FaceDetector :=
  let d1 := d.enabledState
  if !d.enabled || d1.request.isNone || !d1.isAsync then (StatusCode.GENERAL_ERROR, d1)
  else (answer, { d1 with calls := d1.calls ++ [BackendCall.WaitStatusOnly answer] })

/-! ## `face_detector.cpp` -/

/-- The constructor `FaceDetector::FaceDetector`; `maxProposalCount`, `objectSize` and
`labels` are the values `read` stores when the network is loaded. -/
def FaceDetector.mk0 (pathToModel : String) (isAsync : Bool) (detectionThreshold : ℚ)
    (doRawOutputMessages : Bool) (maxProposalCount objectSize : Int)
    (labels : List String) : FaceDetector :=
  { request := none, pathToModel := pathToModel, isAsync := isAsync,
    enablingChecked := false, _enabled := false,
    detectionThreshold := detectionThreshold, doRawOutputMessages := doRawOutputMessages,
    maxProposalCount := maxProposalCount, objectSize := objectSize,
    enquedFrames := 0, width := 0, height := 0, bb_enlarge_coefficient := 6 / 5,
    resultsFetched := false, labels := labels, results := [], calls := [] }

/-- `FaceDetector::submitRequest`. -/
def FaceDetector.submitRequest (infer : Mat → List ℚ) (d : FaceDetector) : FaceDetector :=
  if d.enquedFrames = 0 then d
  else
    BaseDetector.submitRequest infer
      { d with enquedFrames := 0, resultsFetched := false, results := [] }

/-- `FaceDetector::enqueue`. -/
def FaceDetector.enqueue (frame : Mat) (d : FaceDetector) : FaceDetector :=
  let d1 := d.enabledState
  if !d.enabled then d1
  else
    let rq : InferRequest :=
      match d1.request with
      | none => { inputBlob := Mat.empty, outputBlob := [] }
      | some rq => rq
    { d1 with request := some { rq with inputBlob := frame },
              width := fl32 (frame.cols : ℚ), height := fl32 (frame.rows : ℚ),
              enquedFrames := 1 }

/-- Reading `detections[idx]` from the output buffer. -/
def readBlob (detections : List ℚ) (idx : Int) : ℚ :=
  if idx < 0 then 0 else detections.getD idx.toNat 0

/-- Lines 132-135 of `fetchResults`: the integer pixel box of record `i`; each `float`
product and difference is rounded to binary32 before the conversion to `int`. -/
def pixelBox (d : FaceDetector) (detections : List ℚ) (i : Int) : Rect :=
  let x := truncQ (fl32 (readBlob detections (i * d.objectSize + 3) * d.width))
  let y := truncQ (fl32 (readBlob detections (i * d.objectSize + 4) * d.height))
  let w := truncQ (fl32 (fl32 (readBlob detections (i * d.objectSize + 5) * d.width)
    - fl32 (x : ℚ)))
  let h := truncQ (fl32 (fl32 (readBlob detections (i * d.objectSize + 6) * d.height)
    - fl32 (y : ℚ)))
  { x := x, y := y, width := w, height := h }

/-- Lines 138-153 of `fetchResults`: make the box square and enlarge it. -/
def squareEnlarge (bb_enlarge_coefficient : ℚ) (loc : Rect) : Rect :=
  let bb_width := loc.width
  let bb_height := loc.height
  let bb_center_x := loc.x + Int.tdiv bb_width 2
  let bb_center_y := loc.y + Int.tdiv bb_height 2
  let max_of_sizes := max bb_width bb_height
  let bb_new_width := truncQ (bb_enlarge_coefficient * (max_of_sizes : ℚ))
  let bb_new_height := truncQ (bb_enlarge_coefficient * (max_of_sizes : ℚ))
  { x := bb_center_x - Int.tdiv bb_new_width 2,
    y := bb_center_y - Int.tdiv bb_new_height 2,
    width := bb_new_width,
    height := bb_new_height }

/-- The `Result` that `fetchResults` builds for record `i` (label, confidence, box). -/
def recordResult (d : FaceDetector) (detections : List ℚ) (i : Int) : Result :=
  { label := truncQ (readBlob detections (i * d.objectSize + 1)),
    confidence := readBlob detections (i * d.objectSize + 2),
    location := squareEnlarge d.bb_enlarge_coefficient (pixelBox d detections i) }

/-- The `for` loop of `fetchResults` (lines 122-166): `n` iterations remain, `i` is the
loop counter, `results` the vector built so far. -/
def fetchLoop (d : FaceDetector) (detections : List ℚ) :
    Nat → Int → List Result → List Result
  | 0, _, results => results
  | n + 1, i, results =>
    let image_id := readBlob detections (i * d.objectSize + 0)
    let r := recordResult d detections i
    if r.confidence ≤ d.detectionThreshold then
      fetchLoop d detections n (i + 1) results
    else if image_id < 0 then
      results
    else
      fetchLoop d detections n (i + 1) (results ++ [r])

/-- The output buffer `fetchResults` reads. -/
def FaceDetector.outputBuffer (d : FaceDetector) : List ℚ :=
  match d.request with
  | none => []
  | some rq => rq.outputBlob

/-- `FaceDetector::fetchResults`. -/
def FaceDetector.fetchResults (d : FaceDetector) : FaceDetector :=
  let d1 := d.enabledState
  if !d.enabled then d1
  else
    let d2 := { d1 with results := [] }
    if d2.resultsFetched then d2
    else
      let d3 := { d2 with resultsFetched := true }
      { d3 with results :=
          fetchLoop d3 d3.outputBuffer d3.maxProposalCount.toNat 0 d3.results }

/-- The conversion of an `int` to `size_t` (64 bit) in a mixed comparison. -/
def toSizeT (n : Int) : Nat := (n % (2 ^ 64 : Int)).toNat

/-- Lines 91-97 of `FaceDetector::read`: the label list after the comparison with
`num_classes`; `labels.size()` is a `size_t`, `num_classes` an `int`. -/
def repairLabels (labels : List String) (num_classes : Int) : List String :=
  if labels.length ≠ toSizeT num_classes then
    if labels.length = toSizeT (num_classes - 1) then "fake" :: labels
    else []
  else labels

/-! ## `main.cpp`: optical-flow tracking -/

/-- The `MAX` macro of OpenCV's `cvdef.h`. -/
def MAX (a b : ℚ) : ℚ := if a < b then b else a

/-- Element `i` of a point vector. -/
def pointAt (pts : List Point2f) (i : Nat) : Point2f := pts.getD i ⟨0, 0⟩

/-- The forward-backward test of one point (lines 232-234 and 282-284): the
differences are `float` subtractions, `abs` is the overload `o`. -/
def fbGood (o : AbsOverload) (p rev : Point2f) : Bool :=
  let diff_x := absValue o (fl32 (p.x - rev.x))
  let diff_y := absValue o (fl32 (p.y - rev.y))
  decide (MAX diff_x diff_y ≤ 1)

/-- The loop building `good_points` (lines 230-237 and 280-287): `n` iterations remain,
`i` is the loop counter. -/
def goodPointsLoop (o : AbsOverload)
    (feature_points feature_points_next feature_points_rev : List Point2f) :
    Nat → Nat → List Point2f → List Point2f
  | 0, _, good_points => good_points
  | n + 1, i, good_points =>
    if fbGood o (pointAt feature_points i) (pointAt feature_points_rev i) then
      goodPointsLoop o feature_points feature_points_next feature_points_rev n (i + 1)
        (good_points ++ [pointAt feature_points_next i])
    else
      goodPointsLoop o feature_points feature_points_next feature_points_rev n (i + 1)
        good_points

/-- The vector `good_points` computed from the points and the two flow estimates. -/
def goodPoints (o : AbsOverload)
    (feature_points feature_points_next feature_points_rev : List Point2f) :
    List Point2f :=
  goodPointsLoop o feature_points feature_points_next feature_points_rev
    feature_points.length 0 []

/-- The accumulation `mean_pos += point / float(points.size())` over `points`, from the
default `cv::Point2f` (0, 0): the conversion of the size, each division and each
addition round to binary32. -/
def meanPos (points : List Point2f) : Point2f :=
  points.foldl
    (fun mean_pos point =>
      { x := fl32 (mean_pos.x + fl32 (point.x / fl32 (points.length : ℚ))),
        y := fl32 (mean_pos.y + fl32 (point.y / fl32 (points.length : ℚ))) })
    ⟨0, 0⟩

/-- The box update (lines 244-247 and 294-297) applied to one result: the `int` half
size is converted to `float`, the `float` difference is converted to `int`. -/
def moveBox (mean_pos : Point2f) (box : Result) : Result :=
  { box with location :=
      { box.location with
        x := truncQ (fl32 (mean_pos.x - fl32 ((Int.tdiv box.location.width 2 : Int) : ℚ))),
        y := truncQ (fl32 (mean_pos.y - fl32 ((Int.tdiv box.location.height 2 : Int) : ℚ))) } }

/-- The rectangles drawn into the mask handed to `cv::goodFeaturesToTrack`. -/
structure Mask where
  cols : Nat
  rows : Nat
  rects : List Rect
  deriving DecidableEq, Repr

/-- The external collaborators of the main loop. -/
structure Env where
  /-- Command line: `-m`, `-async`, `-t`, `-r`, `-no_show`. -/
  FLAGS_m : String
  FLAGS_async : Bool
  FLAGS_t : ℚ
  FLAGS_r : Bool
  FLAGS_no_show : Bool
  /-- What `read` stored when the network was loaded. -/
  maxProposalCount : Int
  objectSize : Int
  labels : List String
  /-- The `k`-th call of `cap.read` (counted from 0): the frame, or `none` on failure. -/
  video : Nat → Option Mat
  /-- The network's output buffer for an input frame. -/
  infer : Mat → List ℚ
  /-- The backend's answer to `Wait(STATUS_ONLY)` in the iteration with the given
  value of `framesCounter`. -/
  backendStatus : Nat → StatusCode
  /-- The result of `cv::goodFeaturesToTrack` on a frame with a mask and `maxCorners`. -/
  goodFeaturesToTrack : Mat → Mask → Nat → List Point2f
  /-- The result of `cv::calcOpticalFlowPyrLK prevImg nextImg prevPts` with `maxLevel`. -/
  calcOpticalFlowPyrLK : Mat → Mat → List Point2f → Nat → List Point2f
  /-- The value of `cv::waitKey(1)` in the iteration with the given `framesCounter`. -/
  waitKey : Nat → Int
  /-- The overload the unqualified `abs` of lines 232-233 and 282-283 resolves to. -/
  absOverload : AbsOverload

/-- The local variables of `main` that live across loop iterations; `capPos` counts the
calls of `cap.read`, `finished` is set when the loop is left by `break`. -/
structure LoopState where
  faceDetector : FaceDetector
  capPos : Nat
  framesCounter : Nat
  frameReadStatus : Bool
  isLastFrame : Bool
  prev_frame : Mat
  frame : Mat
  next_frame : Mat
  detect_frame : Mat
  prev_detect_frame : Mat
  prev_detection_results : List Result
  frame_queue : List Mat
  feature_points : List Point2f
  finished : Bool
  deriving DecidableEq

/-- One `cap.read`: the status and the frame left in the target (released on failure). -/
def capRead (env : Env) (capPos : Nat) : Bool × Mat :=
  match env.video capPos with
  | some f => (true, f)
  | none => (false, Mat.empty)

/-- One pass of the body of the inner tracking loop of the cadence branch (lines
219-254) over the pair `frame_queue[i]`, `frame_queue[i + 1]`. -/
def trackQueuePair (env : Env) (a b : Mat) (st : List Point2f × List Result) :
    List Point2f × List Result :=
  let feature_points := st.1
  let prev_detection_results := st.2
  if feature_points.length > 0 then
    let feature_points_next := env.calcOpticalFlowPyrLK a b feature_points 0
    let feature_points_rev := env.calcOpticalFlowPyrLK b a feature_points_next 0
    let good_points :=
      goodPoints env.absOverload feature_points feature_points_next feature_points_rev
    let mean_pos := meanPos good_points
    (good_points, prev_detection_results.map (moveBox mean_pos))
  else st

/-- The inner tracking loop of the cadence branch (lines 218-263): `n` iterations
remain, `i` is the loop counter. -/
def trackQueueLoop (env : Env) (frame_queue : List Mat) :
    Nat → Nat → List Point2f × List Result → List Point2f × List Result
  | 0, _, st => st
  | n + 1, i, st =>
    trackQueueLoop env frame_queue n (i + 1)
      (trackQueuePair env (frame_queue.getD i Mat.empty)
        (frame_queue.getD (i + 1) Mat.empty) st)

/-- The per-frame tracking of the `else` branch (lines 269-300). -/
def trackFrame (env : Env) (prev_frame frame : Mat) (st : List Point2f × List Result) :
    List Point2f × List Result :=
  let feature_points := st.1
  let prev_detection_results := st.2
  if feature_points.length > 0 then
    let feature_points_next := env.calcOpticalFlowPyrLK prev_frame frame feature_points 3
    let feature_points_rev := env.calcOpticalFlowPyrLK frame prev_frame feature_points_next 3
    let good_points :=
      goodPoints env.absOverload feature_points feature_points_next feature_points_rev
    let mean_pos := meanPos feature_points
    (good_points, prev_detection_results.map (moveBox mean_pos))
  else st

/-! ## `main.cpp`: the detect/track loop

Rendering (`imshow`, `putText`), timers and log output are not modelled; exceptions
raised inside OpenCV routines are not modelled either. -/

/-- The loop variables after the statements before the loop (lines 121-159), `frame`
being the first frame read: it is enqueued and submitted, then the next frame is
read. -/
def initState (env : Env) (frame : Mat) : LoopState :=
  let faceDetector :=
    (FaceDetector.mk0 env.FLAGS_m env.FLAGS_async env.FLAGS_t env.FLAGS_r
      env.maxProposalCount env.objectSize env.labels).enabledState
  let detect_frame := frame
  let faceDetector := (faceDetector.enqueue frame).submitRequest env.infer
  let prev_frame := frame
  let r := capRead env 1
  { faceDetector := faceDetector, capPos := 2, framesCounter := 0,
    frameReadStatus := r.1, isLastFrame := false,
    prev_frame := prev_frame, frame := r.2, next_frame := Mat.empty,
    detect_frame := detect_frame, prev_detect_frame := Mat.empty,
    prev_detection_results := [], frame_queue := [], feature_points := [],
    finished := false }

/-- The statements of `main` before the loop (lines 46-159): `none` when
`ParseAndCheckCommandLine` rejects an empty `-m` or the first `cap.read` fails. -/
def mainInit (env : Env) : Option LoopState :=
  if env.FLAGS_m.isEmpty then none
  else
    match env.video 0 with
    | none => none
    | some frame => some (initState env frame)

/-- Lines 162-183: count the frame, then harvest and resubmit, or buffer the frame. -/
def harvestOrBuffer (env : Env) (s : LoopState) : LoopState :=
  let framesCounter := s.framesCounter + 1
  let isLastFrame := !s.frameReadStatus
  let st := s.faceDetector.status (env.backendStatus framesCounter)
  if st.1 = StatusCode.OK ∧ framesCounter % 30 = 0 then
    let fetched := st.2.wait.fetchResults
    if !isLastFrame then
      { s with framesCounter := framesCounter, isLastFrame := isLastFrame,
               faceDetector := (fetched.enqueue s.frame).submitRequest env.infer,
               prev_detection_results := fetched.results,
               prev_detect_frame := s.detect_frame,
               detect_frame := s.frame }
    else
      { s with framesCounter := framesCounter, isLastFrame := isLastFrame,
               faceDetector := fetched,
               prev_detection_results := fetched.results }
  else
    { s with framesCounter := framesCounter, isLastFrame := isLastFrame,
             faceDetector := st.2,
             frame_queue := s.frame_queue ++ [s.frame] }

/-- Lines 186-190: read the next frame unless the current one is the last. -/
def readNext (env : Env) (s : LoopState) : LoopState :=
  if !s.isLastFrame then
    let r := capRead env s.capPos
    { s with frameReadStatus := r.1, next_frame := r.2, capPos := s.capPos + 1 }
  else s

/-- Lines 195-301: the keypoint update and tracking pass of a cadence frame, or the
per-frame tracking of any other frame. -/
def trackPhase (env : Env) (s : LoopState) : LoopState :=
  if s.framesCounter % 30 = 0 then
    if s.prev_detection_results.length > 0 then
      let mask : Mask :=
        { cols := s.frame.cols, rows := s.frame.rows,
          rects := s.prev_detection_results.map (fun result => result.location) }
      let feature_points :=
        env.goodFeaturesToTrack s.prev_detect_frame mask (50 * s.prev_detection_results.length)
      let frame_queue := [s.prev_detect_frame] ++ s.frame_queue ++ [s.detect_frame]
      let r := trackQueueLoop env frame_queue (frame_queue.length - 1) 0
        (feature_points, s.prev_detection_results)
      { s with feature_points := r.1, prev_detection_results := r.2, frame_queue := [] }
    else s
  else
    let r := trackFrame env s.prev_frame s.frame (s.feature_points, s.prev_detection_results)
    { s with feature_points := r.1, prev_detection_results := r.2 }

/-- Lines 363-377: leave the loop on the last frame or on a key press, else shift the
frames. -/
def advance (env : Env) (s : LoopState) : LoopState :=
  if s.isLastFrame then { s with finished := true }
  else if !env.FLAGS_no_show ∧ env.waitKey s.framesCounter ≠ -1 then
    { s with finished := true }
  else { s with prev_frame := s.frame, frame := s.next_frame, next_frame := Mat.empty }

/-- One iteration of the `while (true)` loop. -/
def loopBody (env : Env) (s : LoopState) : LoopState :=
  advance env (trackPhase env (readNext env (harvestOrBuffer env s)))

/-- One iteration, or nothing once the loop has been left. -/
def loopStep (env : Env) (s : LoopState) : LoopState :=
  if s.finished then s else loopBody env s

/-- The state after at most `n` iterations from `s`. -/
def runLoop (env : Env) : Nat → LoopState → LoopState
  | 0, s => s
  | n + 1, s => loopStep env (runLoop env n s)

/-- The run of `main` cut after at most `n` loop iterations. -/
def mainRun (env : Env) (n : Nat) : Option LoopState :=
  (mainInit env).map (runLoop env n)

/-- Whether the iteration that starts in `s` takes the harvest branch (line 166). -/
def harvests (env : Env) (s : LoopState) : Bool :=
  decide ((s.faceDetector.status (env.backendStatus (s.framesCounter + 1))).1 = StatusCode.OK
    ∧ (s.framesCounter + 1) % 30 = 0)

/-- The single execution slot seen through the backend calls: a request is in flight
from `StartAsync` until the backend answers `OK` to a status query; the result is
`false` when a request is started while one is in flight. -/
def slotRespected : Bool → List BackendCall → Bool
  | _, [] => true
  | busy, BackendCall.StartAsync _ :: rest => !busy && slotRespected true rest
  | busy, BackendCall.Infer _ :: rest => !busy && slotRespected false rest
  | _, BackendCall.WaitStatusOnly StatusCode.OK :: rest => slotRespected false rest
  | busy, _ :: rest => slotRespected busy rest

/-! ## Auxiliary notions and concrete data used in the statements -/

/-- Whether the loop of `fetchResults` is left by `break` at record `i`: the record
passes the confidence test of line 128 and has `image_id < 0` (line 155). -/
def stopsAt (d : FaceDetector) (detections : List ℚ) (i : Int) : Bool :=
  decide (d.detectionThreshold < readBlob detections (i * d.objectSize + 2)) &&
    decide (readBlob detections (i * d.objectSize + 0) < 0)

/-- A 100 x 100 frame with pixel content `k`. -/
def frameOf (k : Nat) : Mat := ⟨k, 100, 100⟩

/-- An output buffer of three records: a face with confidence 0.9, a proposal with
confidence 0.3, and the end-of-list record. -/
def tensorOneFace : List ℚ :=
  [0, 1, 9 / 10, 1 / 10, 1 / 10, 1 / 2, 3 / 5,
   0, 1, 3 / 10, 1 / 5, 1 / 5, 2 / 5, 2 / 5,
   -1, 0, 0, 0, 0, 0, 0]

/-- An output buffer without proposals: the end-of-list record followed by zeros. -/
def tensorNoFace : List ℚ :=
  [-1, 0, 0, 0, 0, 0, 0,
   0, 0, 0, 0, 0, 0, 0,
   0, 0, 0, 0, 0, 0, 0]

/-- An output buffer whose end-of-list record (confidence 0) is followed by a record
with confidence 0.9. -/
def tensorAfterSentinel : List ℚ :=
  [-1, 0, 0, 0, 0, 0, 0,
   0, 1, 9 / 10, 1 / 10, 1 / 10, 1 / 2, 3 / 5,
   0, 0, 0, 0, 0, 0, 0]

/-- An asynchronous detector (threshold 0.5, three proposals of seven values) after
`enqueue` of a 100 x 100 frame and `submitRequest`, with the given output buffer. -/
def submittedDetector (tensor : List ℚ) : FaceDetector :=
  ((FaceDetector.mk0 "face.xml" true (1 / 2) false 3 7 []).enqueue (frameOf 1)).submitRequest
    (fun _ => tensor)

/-- The result parsed from the first record of `tensorOneFace` on a 100 x 100 frame. -/
def faceResult : Result :=
  { label := 1, confidence := 9 / 10, location := { x := 0, y := 5, width := 60, height := 60 } }

/-- Following the spec's words: the indices `i` of the points kept by the
forward-backward check, `max(|x_back - x_orig|, |y_back - y_orig|) <= 1.0`, in order. -/
def fbKeptSpec (orig back : List Point2f) : List Nat :=
  (List.range orig.length).filter
    (fun i => decide (max |(pointAt back i).x - (pointAt orig i).x|
      |(pointAt back i).y - (pointAt orig i).y| ≤ 1))

/-- The indices `i` of the points kept by the forward-backward check as the code
computes it: the `float` differences `x_orig - x_back` and `y_orig - y_back` rounded to
binary32, their `abs` by the overload `o`, and the larger of the two at most 1. -/
def fbKeptRounded (o : AbsOverload) (orig back : List Point2f) : List Nat :=
  (List.range orig.length).filter
    (fun i => decide (max (absValue o (fl32 ((pointAt orig i).x - (pointAt back i).x)))
      (absValue o (fl32 ((pointAt orig i).y - (pointAt back i).y))) ≤ 1))

/-- An environment: asynchronous detector with threshold 0.5, every status query
answered `OK`, no key pressed, a floating-point `abs`, `frames` frames of 100 x 100 with
contents 1, 2, ...;
`tensor`, `corners` and `flow` are the answers of the network, of
`goodFeaturesToTrack` and of `calcOpticalFlowPyrLK`. -/
def demoEnv (frames : Nat) (tensor : Mat → List ℚ) (corners : Mat → List Point2f)
    (flow : Mat → Mat → List Point2f → List Point2f) : Env :=
  { FLAGS_m := "face.xml", FLAGS_async := true, FLAGS_t := 1 / 2, FLAGS_r := false,
    FLAGS_no_show := true, maxProposalCount := 3, objectSize := 7, labels := [],
    video := fun k => if k < frames then some (frameOf (k + 1)) else none,
    infer := tensor,
    backendStatus := fun _ => StatusCode.OK,
    goodFeaturesToTrack := fun f _ _ => corners f,
    calcOpticalFlowPyrLK := fun a b pts _ => flow a b pts,
    waitKey := fun _ => -1,
    absOverload := AbsOverload.floatAbs }

/-- A flow without motion. -/
def flowStill (_a _b : Mat) (pts : List Point2f) : List Point2f := pts

/-- A flow moving every point one pixel to the right from an earlier to a later frame,
and one pixel to the left from a later to an earlier frame. -/
def flowRight (a b : Mat) (pts : List Point2f) : List Point2f :=
  if a.data < b.data then pts.map (fun p => ⟨p.x + 1, p.y⟩)
  else pts.map (fun p => ⟨p.x - 1, p.y⟩)

/-- A 100-frame video in which the network never finds a face. -/
def envNoFace : Env :=
  demoEnv 100 (fun _ => tensorNoFace) (fun _ => [⟨20, 20⟩]) flowStill

/-- A 100-frame video with a face on the first frame only, and motion to the right. -/
def envFaceThenNone : Env :=
  demoEnv 100 (fun f => if f.data = 1 then tensorOneFace else tensorNoFace)
    (fun _ => [⟨20, 20⟩]) flowRight

/-- A 60-frame video with a face on every frame; the corner found on a frame carries
the content identifier of that frame. -/
def envShortVideo : Env :=
  demoEnv 60 (fun _ => tensorOneFace) (fun f => [⟨(f.data : ℚ), (f.data : ℚ)⟩]) flowStill

/-- A flow that is still forward, and backward moves the points with `x >= 30` by two
pixels. -/
def flowDrift (a b : Mat) (pts : List Point2f) : List Point2f :=
  if a.data < b.data then pts
  else pts.map (fun p => if 30 ≤ p.x then ⟨p.x + 2, p.y⟩ else p)

/-- A 100-frame video without faces whose backward flow drifts. -/
def envDrift : Env :=
  demoEnv 100 (fun _ => tensorNoFace) (fun _ => []) flowDrift

/-- The shape of the backend calls of one loop iteration: nothing, one status query, or
a status query answered `OK` followed by at most one wait and at most one start. -/
def iterationCalls (evs : List BackendCall) : Prop :=
  evs = [] ∨ (∃ answer, evs = [BackendCall.WaitStatusOnly answer]) ∨
  ∃ w s, evs = BackendCall.WaitStatusOnly StatusCode.OK :: (w ++ s) ∧
    (w = [] ∨ w = [BackendCall.WaitResultReady]) ∧
    (s = [] ∨ ∃ input, s = [BackendCall.StartAsync input] ∨ s = [BackendCall.Infer input])

/-- Whether a backend call starts an asynchronous request. -/
def isStartAsync : BackendCall → Bool
  | BackendCall.StartAsync _ => true
  | _ => false

/-! ## `face_detector.cpp`: loading the network -/

/-- What `FaceDetector::read` looks at in the network files: the sizes of the input and
output maps, the type of the output layer, its `num_classes` attribute (if present),
the dimensions of the output tensor and the words of the `.labels` file. -/
structure NetworkDesc where
  numInputs : Nat
  numOutputs : Nat
  outputLayerType : String
  num_classes : Option Int
  outputDims : List Nat
  labelsFile : List String
  deriving DecidableEq, Repr

/-- The ways `FaceDetector::read` can fail: the five `std::logic_error`s it throws, and
the read of `outputDims[index]` at or beyond `outputDims.size()`, which
`std::vector::operator[]` does not check. -/
inductive ReadError where
  | onlyOneInput
  | onlyOneOutput
  | notDetectionOutput
  | noNumClasses
  | lastDimensionNot7
  | dimensionsNot4
  | outOfRangeDim (index : Nat)
  deriving DecidableEq, Repr

/-- The read `outputDims[index]` of lines 99-100. -/
def dimAt (outputDims : List Nat) (index : Nat) : Except ReadError Nat :=
  match outputDims[index]? with
  | some v => Except.ok v
  | none => Except.error (ReadError.outOfRangeDim index)

/-- The narrowing of a `size_t` value into an `int` member (32 bit, two's complement). -/
def toInt32 (n : Nat) : Int := ((n : Int) + 2 ^ 31) % 2 ^ 32 - 2 ^ 31

/-- `FaceDetector::read` (lines 40-113), in the order of the source: the labels are
read, the input and output counts, the layer type and `num_classes` are checked, the
label list is repaired, `outputDims[2]` and `outputDims[3]` are stored, and only then
the last dimension and the number of dimensions are checked. -/
def FaceDetector.read (net : NetworkDesc) (d : FaceDetector) : Except ReadError FaceDetector :=
  let labels := d.labels ++ net.labelsFile
  if net.numInputs ≠ 1 then Except.error ReadError.onlyOneInput
  else if net.numOutputs ≠ 1 then Except.error ReadError.onlyOneOutput
  else if net.outputLayerType ≠ "DetectionOutput" then Except.error ReadError.notDetectionOutput
  else
    match net.num_classes with
    | none => Except.error ReadError.noNumClasses
    | some num_classes =>
      let labels := repairLabels labels num_classes
      match dimAt net.outputDims 2 with
      | Except.error e => Except.error e
      | Except.ok dim2 =>
        match dimAt net.outputDims 3 with
        | Except.error e => Except.error e
        | Except.ok dim3 =>
          let maxProposalCount := toInt32 dim2
          let objectSize := toInt32 dim3
          if objectSize ≠ 7 then Except.error ReadError.lastDimensionNot7
          else if net.outputDims.length ≠ 4 then Except.error ReadError.dimensionsNot4
          else
            Except.ok { d with labels := labels,
                               maxProposalCount := maxProposalCount,
                               objectSize := objectSize }

/-- A detector as constructed by `main`, before the network is loaded. -/
def freshDetector : FaceDetector :=
  FaceDetector.mk0 "face.xml" true (1 / 2) false 0 0 []

/-- The error of a failed `read`, if it failed. -/
def readFailure (r : Except ReadError FaceDetector) : Option ReadError :=
  match r with
  | Except.error e => some e
  | Except.ok _ => none

/-- A network with one input and one `DetectionOutput` output of two classes whose
output tensor has the given dimensions. -/
def netWithDims (outputDims : List Nat) : NetworkDesc :=
  { numInputs := 1, numOutputs := 1, outputLayerType := "DetectionOutput",
    num_classes := some 2, outputDims := outputDims, labelsFile := ["face"] }

/-- A second face result, of the same size as `faceResult` at another position. -/
def faceResult2 : Result :=
  { label := 1, confidence := 4 / 5,
    location := { x := 30, y := 20, width := 60, height := 60 } }

/-- A 100-frame video with a face on the first frame, one corner at (40, 40), and a
backward flow that drifts by two pixels. -/
def envFaceDrift : Env :=
  demoEnv 100 (fun f => if f.data = 1 then tensorOneFace else tensorNoFace)
    (fun _ => [⟨40, 40⟩]) flowDrift

/-- The environment `envFaceThenNone` with a synchronous detector (`-async` not set). -/
def envSync : Env :=
  { envFaceThenNone with FLAGS_async := false }

/-- The facts that hold throughout a run with a synchronous detector. -/
def syncInvariant (s : LoopState) : Prop :=
  s.faceDetector.isAsync = false ∧ s.faceDetector.results = [] ∧
  s.faceDetector.resultsFetched = false ∧
  s.prev_detection_results = [] ∧ s.feature_points = []

/-! ## Theorems -/

/-! ### The parse loop of `fetchResults` -/

theorem enabledState_enabled (d : FaceDetector) : d.enabledState.enabled = d.enabled := by
  unfold FaceDetector.enabledState FaceDetector.enabled
  cases h : d.enablingChecked <;> simp [h]

theorem enabledState_parse_fields (d : FaceDetector) :
    d.enabledState.request = d.request ∧ d.enabledState.detectionThreshold = d.detectionThreshold ∧
    d.enabledState.maxProposalCount = d.maxProposalCount ∧
    d.enabledState.objectSize = d.objectSize ∧ d.enabledState.width = d.width ∧
    d.enabledState.height = d.height ∧
    d.enabledState.bb_enlarge_coefficient = d.bb_enlarge_coefficient ∧
    d.enabledState.resultsFetched = d.resultsFetched ∧ d.enabledState.results = d.results := by
  unfold FaceDetector.enabledState
  cases h : d.enablingChecked <;> simp

theorem recordResult_congr (d d' : FaceDetector) (det : List ℚ) (i : Int)
    (ho : d'.objectSize = d.objectSize) (hw : d'.width = d.width) (hh : d'.height = d.height)
    (hc : d'.bb_enlarge_coefficient = d.bb_enlarge_coefficient) :
    recordResult d' det i = recordResult d det i := by
  simp [recordResult, pixelBox, ho, hw, hh, hc]

theorem fetchLoop_congr (d d' : FaceDetector) (det : List ℚ)
    (ho : d'.objectSize = d.objectSize) (hw : d'.width = d.width) (hh : d'.height = d.height)
    (hc : d'.bb_enlarge_coefficient = d.bb_enlarge_coefficient)
    (ht : d'.detectionThreshold = d.detectionThreshold) (n : Nat) :
    ∀ (i : Int) (acc : List Result), fetchLoop d' det n i acc = fetchLoop d det n i acc := by
  induction n with
  | zero => intro i acc; rfl
  | succ n ih =>
    intro i acc
    unfold fetchLoop
    simp only [recordResult_congr d d' det i ho hw hh hc, ht, ho, ih]

theorem recordResult_confidence (d : FaceDetector) (det : List ℚ) (i : Int) :
    (recordResult d det i).confidence = readBlob det (i * d.objectSize + 2) := rfl

theorem fetchLoop_eq (d : FaceDetector) (det : List ℚ) (n : Nat) :
    ∀ (i : Int) (acc : List Result),
      fetchLoop d det n i acc =
        acc ++ ((((List.range n).map (fun k : Nat => i + (k : Int))).takeWhile
          (fun j => !stopsAt d det j)).filter
          (fun j => decide (d.detectionThreshold < readBlob det (j * d.objectSize + 2)))).map
            (recordResult d det) := by
  induction n with
  | zero => intro i acc; simp [fetchLoop]
  | succ n ih =>
    intro i acc
    have hshift : (List.range n).map ((fun k : Nat => i + (k : Int)) ∘ Nat.succ)
        = (List.range n).map (fun k : Nat => (i + 1) + (k : Int)) := by
      apply List.map_congr_left
      intro k _
      simp only [Function.comp, Nat.succ_eq_add_one]
      push_cast
      ring
    rw [List.range_succ_eq_map, List.map_cons, List.map_map, hshift]
    simp only [Nat.cast_zero, add_zero]
    unfold fetchLoop
    simp only [recordResult_confidence]
    by_cases hc : readBlob det (i * d.objectSize + 2) ≤ d.detectionThreshold
    · have hs : stopsAt d det i = false := by
        unfold stopsAt; rw [decide_eq_false (not_lt.mpr hc)]; rfl
      rw [if_pos hc, ih]
      simp [List.takeWhile_cons, hs, List.filter_cons, not_lt.mpr hc]
    · rw [if_neg hc]
      by_cases hi : readBlob det (i * d.objectSize + 0) < 0
      · have hs : stopsAt d det i = true := by
          unfold stopsAt; rw [decide_eq_true (not_le.mp hc), decide_eq_true hi]; rfl
        rw [if_pos hi]
        simp [List.takeWhile_cons, hs]
      · have hs : stopsAt d det i = false := by
          unfold stopsAt; rw [decide_eq_false hi]; simp
        rw [if_neg hi, ih]
        simp [List.takeWhile_cons, hs, List.filter_cons, not_le.mp hc]

theorem fetchResults_results (d : FaceDetector) (hen : d.enabled = true) :
    d.fetchResults.results =
      if d.resultsFetched then []
      else fetchLoop d d.outputBuffer d.maxProposalCount.toNat 0 [] := by
  obtain ⟨hrq, ht, hm, ho, hw, hh, hc, hf, _⟩ := enabledState_parse_fields d
  unfold FaceDetector.fetchResults
  simp only [hen, Bool.not_true, Bool.false_eq_true, if_false, hf]
  cases hfd : d.resultsFetched
  · simp only [Bool.false_eq_true, if_false]
    refine (fetchLoop_congr d { d.enabledState with results := [], resultsFetched := true } _
      ho hw hh hc ht _ _ _).trans ?_
    simp [FaceDetector.outputBuffer, hrq, hm]
  · simp

/-- C1. The confidence filter of `FaceDetector::fetchResults`: every result left in
`results` has a confidence above `detectionThreshold`; and the results are, in record
order, the results of exactly those records with confidence above the threshold that
are visited before the loop is left (each of which has `image_id >= 0`). -/
theorem fetchResults_confidence_filter (d : FaceDetector) (rq : InferRequest)
    (hen : d.enabled = true) (hrq : d.request = some rq) :
    (∀ r ∈ d.fetchResults.results, d.detectionThreshold < r.confidence) ∧
    (d.resultsFetched = false →
      d.fetchResults.results =
        ((((List.range d.maxProposalCount.toNat).map (fun k : Nat => (k : Int))).takeWhile
            (fun i => !stopsAt d rq.outputBlob i)).filter
            (fun i => decide (d.detectionThreshold < readBlob rq.outputBlob (i * d.objectSize + 2)))).map
          (recordResult d rq.outputBlob)) ∧
    (∀ i ∈ ((List.range d.maxProposalCount.toNat).map (fun k : Nat => (k : Int))).takeWhile
          (fun i => !stopsAt d rq.outputBlob i),
        d.detectionThreshold < readBlob rq.outputBlob (i * d.objectSize + 2) →
          0 ≤ readBlob rq.outputBlob (i * d.objectSize + 0)) := by
  have hbuf : d.outputBuffer = rq.outputBlob := by simp [FaceDetector.outputBuffer, hrq]
  have hres := fetchResults_results d hen
  rw [hbuf, fetchLoop_eq] at hres
  simp only [zero_add, List.nil_append] at hres
  refine ⟨?_, ?_, ?_⟩
  · intro r hr
    rw [hres] at hr
    cases hfd : d.resultsFetched
    · simp only [hfd, Bool.false_eq_true, if_false, List.mem_map, List.mem_filter] at hr
      obtain ⟨i, ⟨_, hi⟩, rfl⟩ := hr
      simpa [recordResult_confidence] using hi
    · simp [hfd] at hr
  · intro hfd
    rw [hres]
    simp [hfd]
  · intro i hi hconf
    have hns := List.mem_takeWhile_imp hi
    simp only [stopsAt, decide_eq_true hconf, Bool.true_and, Bool.not_eq_true',
      decide_eq_false_iff_not, not_lt] at hns
    exact hns

/-- Witness for C1 on a three-record buffer holding one face. -/
theorem fetchResults_confidence_filter_witness :
    (submittedDetector tensorOneFace).enabled = true ∧
    (submittedDetector tensorOneFace).request = some ⟨frameOf 1, tensorOneFace⟩ ∧
    (∀ r ∈ (submittedDetector tensorOneFace).fetchResults.results, (1 / 2 : ℚ) < r.confidence) :=
  ⟨by decide!, by decide!,
    (fetchResults_confidence_filter (submittedDetector tensorOneFace) ⟨frameOf 1, tensorOneFace⟩
      (by decide!) (by decide!)).1⟩

/-! ### Truncation toward zero -/

/-- C3. Label-list repair in `FaceDetector::read` for an `int` class count `N` and a
label list shorter than `2 ^ 63`: a list of length `N` is unchanged, a list of length
`N - 1` gets exactly one placeholder in front, any other list is cleared. -/
theorem repairLabels_spec (labels : List String) (N : Int)
    (hN : -(2 : Int) ^ 31 < N ∧ N < (2 : Int) ^ 31) (hL : labels.length < 2 ^ 63) :
    ((labels.length : Int) = N → repairLabels labels N = labels) ∧
    ((labels.length : Int) = N - 1 →
      repairLabels labels N = "fake" :: labels ∧ (repairLabels labels N).length = N) ∧
    ((labels.length : Int) ≠ N → (labels.length : Int) ≠ N - 1 → repairLabels labels N = []) := by
  obtain ⟨hlo, hhi⟩ := hN
  have hL' : labels.length < 9223372036854775808 := by simpa using hL
  norm_num at hlo hhi
  unfold repairLabels toSizeT
  refine ⟨?_, ?_, ?_⟩
  · intro h
    rw [if_neg (by omega)]
  · intro h
    rw [if_pos (by omega), if_pos (by omega)]
    refine ⟨rfl, ?_⟩
    simp only [List.length_cons]
    omega
  · intro h1 h2
    rw [if_pos (by omega), if_neg (by omega)]

/-- Witness for C3: two classes, one label. -/
theorem repairLabels_spec_witness :
    (-(2 : Int) ^ 31 < 2 ∧ (2 : Int) < (2 : Int) ^ 31) ∧ ["face"].length < 2 ^ 63 ∧
    repairLabels ["face"] 2 = ["fake", "face"] :=
  ⟨by decide, by decide,
    ((repairLabels_spec ["face"] 2 (by decide) (by decide)).2.1 (by decide)).1⟩

/-! ### Repeated fetch and the end-of-list record -/

theorem enabled_congr (d d' : FaceDetector) (h1 : d'.enablingChecked = d.enablingChecked)
    (h2 : d'._enabled = d._enabled) (h3 : d'.pathToModel = d.pathToModel) :
    d'.enabled = d.enabled := by
  unfold FaceDetector.enabled
  rw [h1, h2, h3]

theorem fetchResults_flags (d : FaceDetector) :
    d.fetchResults.enablingChecked = d.enabledState.enablingChecked ∧
    d.fetchResults._enabled = d.enabledState._enabled ∧
    d.fetchResults.pathToModel = d.enabledState.pathToModel := by
  unfold FaceDetector.fetchResults
  simp only []
  split
  · exact ⟨rfl, rfl, rfl⟩
  · split <;> exact ⟨rfl, rfl, rfl⟩

theorem fetchResults_enabled (d : FaceDetector) : d.fetchResults.enabled = d.enabled := by
  obtain ⟨h1, h2, h3⟩ := fetchResults_flags d
  rw [enabled_congr d.enabledState d.fetchResults h1 h2 h3, enabledState_enabled]

theorem fetchResults_resultsFetched (d : FaceDetector) (hen : d.enabled = true) :
    d.fetchResults.resultsFetched = true := by
  unfold FaceDetector.fetchResults
  simp only [hen, Bool.not_true, Bool.false_eq_true, if_false]
  split
  · assumption
  · rfl

/-- C4 (counterexample). After a submit whose output holds one face, the first
`fetchResults` leaves the parsed face in `results` and the second one leaves `results`
empty: the second call does not leave what the first call produced. -/
theorem fetchResults_not_idempotent :
    (submittedDetector tensorOneFace).fetchResults.results = [faceResult] ∧
    (submittedDetector tensorOneFace).fetchResults.fetchResults.results = [] ∧
    (submittedDetector tensorOneFace).fetchResults.fetchResults.results ≠
      (submittedDetector tensorOneFace).fetchResults.results := by
  refine ⟨by decide!, by decide!, by decide!⟩

/-- C4 (amended). For an enabled detector, a second `fetchResults` with no
`submitRequest` in between clears `results` and returns at the `resultsFetched` test,
whatever the output buffer holds: `results` is empty after it, so it equals what the
first call produced only when the first call produced no detection. -/
theorem fetchResults_second_call_empty (d : FaceDetector) (hen : d.enabled = true) :
    d.fetchResults.resultsFetched = true ∧
    d.fetchResults.fetchResults.resultsFetched = true ∧
    d.fetchResults.fetchResults.results = [] ∧
    (d.fetchResults.fetchResults.results = d.fetchResults.results ↔
      d.fetchResults.results = []) := by
  have hen1 : d.fetchResults.enabled = true := by rw [fetchResults_enabled, hen]
  have hf1 := fetchResults_resultsFetched d hen
  have hf2 := fetchResults_resultsFetched d.fetchResults hen1
  have h2 : d.fetchResults.fetchResults.results = [] := by
    rw [fetchResults_results d.fetchResults hen1, hf1]
    rfl
  refine ⟨hf1, hf2, h2, ?_⟩
  rw [h2]
  exact eq_comm

/-- Witness for the amended C4 on the detector whose output holds one face. -/
theorem fetchResults_second_call_empty_witness :
    (submittedDetector tensorOneFace).enabled = true ∧
    (submittedDetector tensorOneFace).fetchResults.fetchResults.results = [] :=
  ⟨by decide!, (fetchResults_second_call_empty (submittedDetector tensorOneFace) (by decide!)).2.2.1⟩

/-- C5 (the code at the failing input). With an end-of-list record of confidence 0 at
index 0 and a record of confidence 0.9 at index 1, the loop does not stop at index 0:
the record at index 1 is in `results`. -/
theorem fetchResults_passes_sentinel :
    readBlob tensorAfterSentinel (0 * 7 + 0) < 0 ∧
    (submittedDetector tensorAfterSentinel).fetchResults.results =
      [recordResult (submittedDetector tensorAfterSentinel) tensorAfterSentinel 1] ∧
    (submittedDetector tensorAfterSentinel).fetchResults.results ≠ [] := by
  refine ⟨by decide!, by decide!, by decide!⟩

/-! ### The forward-backward filter -/

theorem MAX_eq_max (a b : ℚ) : MAX a b = max a b := by
  unfold MAX
  by_cases h : a < b
  · rw [if_pos h, max_eq_right h.le]
  · rw [if_neg h, max_eq_left (not_lt.mp h)]

theorem fl32_examples :
    fl32 (1 / 10) = 13421773 / 134217728 ∧
    fl32 (6 / 5) = 5033165 / 4194304 ∧
    fl32 16777217 = 16777216 ∧
    fl32 (1 / 2 ^ 150) = 0 ∧
    fl32 (3 / 2 ^ 150) = 1 / 2 ^ 148 ∧
    fl32 (-(1 / 3)) = -(11184811 / 33554432) ∧
    truncQ (fl32 (fl32 (175 / 1000) * 640)) = 112 ∧
    truncQ (fl32 (175 / 1000) * 640) = 111 := by
  refine ⟨by decide!, by decide!, by decide!, by decide!, by decide!, by decide!, by decide!,
    by decide!⟩

theorem fl32_zero : fl32 0 = 0 := by
  unfold fl32
  rw [if_pos rfl]

theorem absValue_zero (o : AbsOverload) : absValue o 0 = 0 := by
  cases o
  · simp [absValue]
  · simp [absValue, truncQ, fl32_zero]

theorem fbGood_iff (o : AbsOverload) (p rev : Point2f) :
    fbGood o p rev = decide (max (absValue o (fl32 (p.x - rev.x)))
      (absValue o (fl32 (p.y - rev.y))) ≤ 1) := by
  unfold fbGood
  simp only [MAX_eq_max]

theorem goodPointsLoop_eq (o : AbsOverload) (pts next rev : List Point2f) (n : Nat) :
    ∀ (i : Nat) (acc : List Point2f),
      goodPointsLoop o pts next rev n i acc =
        acc ++ (((List.range n).map (fun k => i + k)).filter
          (fun j => fbGood o (pointAt pts j) (pointAt rev j))).map (pointAt next) := by
  induction n with
  | zero => intro i acc; simp [goodPointsLoop]
  | succ n ih =>
    intro i acc
    have hshift : (List.range n).map ((fun k => i + k) ∘ Nat.succ)
        = (List.range n).map (fun k => (i + 1) + k) := by
      apply List.map_congr_left
      intro k _
      simp only [Function.comp, Nat.succ_eq_add_one]
      omega
    rw [List.range_succ_eq_map, List.map_cons, List.map_map, hshift]
    simp only [add_zero]
    unfold goodPointsLoop
    cases hg : fbGood o (pointAt pts i) (pointAt rev i)
    · simp [ih, List.filter_cons, hg]
    · simp [ih, List.filter_cons, hg]

theorem goodPoints_eq (o : AbsOverload) (pts next rev : List Point2f) :
    goodPoints o pts next rev = (fbKeptRounded o pts rev).map (pointAt next) := by
  unfold goodPoints fbKeptRounded
  rw [goodPointsLoop_eq]
  simp [fbGood_iff]

/-- C6 (counterexample). A point at x = 0.1f whose backward estimate is x = 1.1f (both
binary32 values) has the round-trip error 134217731 / 134217728 > 1, so the claim's set
of kept indices is empty; but the `float` subtraction rounds to -1 and the loop keeps
the point, with either overload of `abs`. With the `int` overload a point with error
1.5 is kept as well. -/
theorem forward_backward_rounding :
    fl32 (13421773 / 134217728) = 13421773 / 134217728 ∧
    fl32 (9227469 / 8388608) = 9227469 / 8388608 ∧
    (1 : ℚ) < |9227469 / 8388608 - 13421773 / 134217728| ∧
    fbKeptSpec [⟨13421773 / 134217728, 0⟩] [⟨9227469 / 8388608, 0⟩] = [] ∧
    fl32 (13421773 / 134217728 - 9227469 / 8388608) = -1 ∧
    goodPoints AbsOverload.floatAbs [⟨13421773 / 134217728, 0⟩] [⟨5, 7⟩]
      [⟨9227469 / 8388608, 0⟩] = [⟨5, 7⟩] ∧
    goodPoints AbsOverload.intAbs [⟨13421773 / 134217728, 0⟩] [⟨5, 7⟩]
      [⟨9227469 / 8388608, 0⟩] = [⟨5, 7⟩] ∧
    fbKeptSpec [⟨0, 0⟩] [⟨3 / 2, 0⟩] = [] ∧
    goodPoints AbsOverload.intAbs [⟨0, 0⟩] [⟨5, 7⟩] [⟨3 / 2, 0⟩] = [⟨5, 7⟩] := by
  refine ⟨by decide!, by decide!, by decide!, by decide!, by decide!, by decide!, by decide!,
    by decide!, by decide!⟩

/-- C6 (amended). The forward-backward filter of the tracking step. In the cadence pass
and in the per-frame pass the new feature point set is the sequence of forward-estimated
positions of the indices `i` for which the larger of `abs(x_i - x_rev_i)` and
`abs(y_i - y_rev_i)`, computed as the code computes them (the difference rounded to
binary32, `abs` the overload in use), is at most 1, in the original order. An index
with zero round-trip error is kept with either overload; with the floating-point
overload an index is dropped when a rounded difference exceeds 1 in absolute value; the
number of points does not increase. -/
theorem forward_backward_filter (env : Env) (a b : Mat) (pts : List Point2f)
    (boxes : List Result) :
    (trackQueuePair env a b (pts, boxes)).1 =
        (fbKeptRounded env.absOverload pts
          (env.calcOpticalFlowPyrLK b a (env.calcOpticalFlowPyrLK a b pts 0) 0)).map
          (pointAt (env.calcOpticalFlowPyrLK a b pts 0)) ∧
    (trackFrame env a b (pts, boxes)).1 =
        (fbKeptRounded env.absOverload pts
          (env.calcOpticalFlowPyrLK b a (env.calcOpticalFlowPyrLK a b pts 3) 3)).map
          (pointAt (env.calcOpticalFlowPyrLK a b pts 3)) ∧
    (∀ (o : AbsOverload) (rev : List Point2f), ∀ i, i < pts.length →
        pointAt rev i = pointAt pts i → i ∈ fbKeptRounded o pts rev) ∧
    (∀ rev : List Point2f, ∀ i,
        1 < max |fl32 ((pointAt pts i).x - (pointAt rev i).x)|
            |fl32 ((pointAt pts i).y - (pointAt rev i).y)| →
          i ∉ fbKeptRounded AbsOverload.floatAbs pts rev) ∧
    (∀ (rev : List Point2f) (i : Nat),
        i ∈ fbKeptRounded AbsOverload.intAbs pts rev ↔
          i < pts.length ∧
          max (fl32 ((|truncQ (fl32 ((pointAt pts i).x - (pointAt rev i).x))| : Int) : ℚ))
              (fl32 ((|truncQ (fl32 ((pointAt pts i).y - (pointAt rev i).y))| : Int) : ℚ))
            ≤ 1) ∧
    (∀ (o : AbsOverload) (rev : List Point2f), (fbKeptRounded o pts rev).length ≤ pts.length) ∧
    (trackQueuePair env a b (pts, boxes)).1.length ≤ pts.length ∧
    (trackFrame env a b (pts, boxes)).1.length ≤ pts.length := by
  have hlen : ∀ (o : AbsOverload) (rev : List Point2f),
      (fbKeptRounded o pts rev).length ≤ pts.length := by
    intro o rev
    unfold fbKeptRounded
    exact (List.length_filter_le _ _).trans (by simp)
  have hq : (trackQueuePair env a b (pts, boxes)).1 =
      (fbKeptRounded env.absOverload pts
        (env.calcOpticalFlowPyrLK b a (env.calcOpticalFlowPyrLK a b pts 0) 0)).map
        (pointAt (env.calcOpticalFlowPyrLK a b pts 0)) := by
    unfold trackQueuePair
    by_cases hp : pts.length > 0
    · simp only [hp, if_true, goodPoints_eq]
    · have : pts = [] := List.length_eq_zero.mp (by omega)
      subst this
      simp [fbKeptRounded]
  have hf : (trackFrame env a b (pts, boxes)).1 =
      (fbKeptRounded env.absOverload pts
        (env.calcOpticalFlowPyrLK b a (env.calcOpticalFlowPyrLK a b pts 3) 3)).map
        (pointAt (env.calcOpticalFlowPyrLK a b pts 3)) := by
    unfold trackFrame
    by_cases hp : pts.length > 0
    · simp only [hp, if_true, goodPoints_eq]
    · have : pts = [] := List.length_eq_zero.mp (by omega)
      subst this
      simp [fbKeptRounded]
  refine ⟨hq, hf, ?_, ?_, ?_, hlen, ?_, ?_⟩
  · intro o rev i hi h
    simp [fbKeptRounded, hi, h, fl32_zero, absValue_zero]
  · intro rev i h hmem
    simp only [fbKeptRounded, absValue, List.mem_filter, List.mem_range,
      decide_eq_true_eq] at hmem
    exact absurd hmem.2 (not_le.mpr h)
  · intro rev i
    simp only [fbKeptRounded, absValue, List.mem_filter, List.mem_range, decide_eq_true_eq]
  · rw [hq, List.length_map]; exact hlen _ _
  · rw [hf, List.length_map]; exact hlen _ _

/-- Witness for C6: of two points, the one whose backward estimate drifts by two pixels
is dropped by the per-frame pass. -/
theorem forward_backward_filter_witness :
    (trackFrame envDrift (frameOf 1) (frameOf 2) ([⟨20, 20⟩, ⟨40, 40⟩], [])).1 = [⟨20, 20⟩] :=
  (forward_backward_filter envDrift (frameOf 1) (frameOf 2) [⟨20, 20⟩, ⟨40, 40⟩] []).2.1.trans
    (by decide!)

/-! ### Backend calls made by the loop -/

theorem enabledState_calls (d : FaceDetector) : d.enabledState.calls = d.calls := by
  unfold FaceDetector.enabledState
  cases d.enablingChecked <;> rfl

theorem status_calls (d : FaceDetector) (answer : StatusCode) :
    ((d.status answer).1 = StatusCode.GENERAL_ERROR ∧ (d.status answer).2.calls = d.calls) ∨
    ((d.status answer).1 = answer ∧
      (d.status answer).2.calls = d.calls ++ [BackendCall.WaitStatusOnly answer]) := by
  unfold FaceDetector.status
  by_cases h : (!d.enabled || d.enabledState.request.isNone || !d.enabledState.isAsync) = true
  · left; simp [h, enabledState_calls]
  · right; simp [h, enabledState_calls]

theorem wait_calls (d : FaceDetector) :
    d.wait.calls = d.calls ∨ d.wait.calls = d.calls ++ [BackendCall.WaitResultReady] := by
  unfold FaceDetector.wait
  by_cases h : (!d.enabled || d.enabledState.request.isNone || !d.enabledState.isAsync) = true
  · left; simp [h, enabledState_calls]
  · right; simp [h, enabledState_calls]

theorem fetchResults_calls (d : FaceDetector) : d.fetchResults.calls = d.calls := by
  unfold FaceDetector.fetchResults
  by_cases h : (!d.enabled) = true
  · simp [h, enabledState_calls]
  · by_cases hf : d.enabledState.resultsFetched = true
    · simp [h, hf, enabledState_calls]
    · simp [h, hf, enabledState_calls]

theorem enqueue_calls (d : FaceDetector) (frame : Mat) : (d.enqueue frame).calls = d.calls := by
  unfold FaceDetector.enqueue
  by_cases h : (!d.enabled) = true
  · simp [h, enabledState_calls]
  · simp [h, enabledState_calls]

theorem base_submitRequest_calls (infer : Mat → List ℚ) (d : FaceDetector) :
    (BaseDetector.submitRequest infer d).calls = d.calls ∨
    ∃ input, (BaseDetector.submitRequest infer d).calls = d.calls ++ [BackendCall.StartAsync input] ∨
      (BaseDetector.submitRequest infer d).calls = d.calls ++ [BackendCall.Infer input] := by
  unfold BaseDetector.submitRequest
  by_cases h : (!d.enabled) = true
  · left; simp [h, enabledState_calls]
  · simp [h]
    cases hr : d.enabledState.request with
    | none => left; simp [enabledState_calls]
    | some rq =>
      right
      refine ⟨rq.inputBlob, ?_⟩
      by_cases ha : d.enabledState.isAsync = true
      · left; simp [ha, enabledState_calls]
      · right; simp [ha, enabledState_calls]

theorem submitRequest_calls (infer : Mat → List ℚ) (d : FaceDetector) :
    (d.submitRequest infer).calls = d.calls ∨
    ∃ input, (d.submitRequest infer).calls = d.calls ++ [BackendCall.StartAsync input] ∨
      (d.submitRequest infer).calls = d.calls ++ [BackendCall.Infer input] := by
  unfold FaceDetector.submitRequest
  by_cases h : d.enquedFrames = 0
  · left; simp [h]
  · simp [h]
    exact base_submitRequest_calls infer _

theorem harvestOrBuffer_calls (env : Env) (s : LoopState) :
    ∃ evs, (harvestOrBuffer env s).faceDetector.calls = s.faceDetector.calls ++ evs ∧
      iterationCalls evs := by
  unfold harvestOrBuffer
  simp only []
  by_cases hh : (s.faceDetector.status (env.backendStatus (s.framesCounter + 1))).1 = StatusCode.OK
      ∧ (s.framesCounter + 1) % 30 = 0
  · rw [if_pos hh]
    rcases status_calls s.faceDetector (env.backendStatus (s.framesCounter + 1)) with hst | hst
    · rw [hst.1] at hh
      exact absurd hh.1 (by decide)
    · have hans : env.backendStatus (s.framesCounter + 1) = StatusCode.OK := by
        rw [← hst.1]; exact hh.1
      rw [hans] at hst
      have hfetch := fetchResults_calls
        ((s.faceDetector.status (env.backendStatus (s.framesCounter + 1))).2.wait)
      have hwait := wait_calls (s.faceDetector.status (env.backendStatus (s.framesCounter + 1))).2
      rw [hans] at hfetch hwait
      rw [hans]
      obtain ⟨w, hw, hwcalls⟩ : ∃ w, (w = [] ∨ w = [BackendCall.WaitResultReady]) ∧
          (s.faceDetector.status StatusCode.OK).2.wait.fetchResults.calls
            = s.faceDetector.calls ++ BackendCall.WaitStatusOnly StatusCode.OK :: w := by
        rcases hwait with hw | hw
        · exact ⟨[], Or.inl rfl, by rw [hfetch, hw, hst.2]⟩
        · exact ⟨[BackendCall.WaitResultReady], Or.inr rfl, by rw [hfetch, hw, hst.2]; simp⟩
      by_cases hl : (!(!s.frameReadStatus)) = true
      · rw [if_pos hl]
        simp only []
        have hsub := submitRequest_calls env.infer
          ((s.faceDetector.status StatusCode.OK).2.wait.fetchResults.enqueue s.frame)
        rw [enqueue_calls, hwcalls] at hsub
        rcases hsub with hsub | ⟨input, hsub | hsub⟩
        · exact ⟨_, hsub, Or.inr (Or.inr ⟨w, [], by simp, hw, Or.inl rfl⟩)⟩
        · refine ⟨BackendCall.WaitStatusOnly StatusCode.OK :: (w ++ [BackendCall.StartAsync input]),
            by rw [hsub]; simp, Or.inr (Or.inr ⟨w, _, rfl, hw, Or.inr ⟨input, Or.inl rfl⟩⟩)⟩
        · refine ⟨BackendCall.WaitStatusOnly StatusCode.OK :: (w ++ [BackendCall.Infer input]),
            by rw [hsub]; simp, Or.inr (Or.inr ⟨w, _, rfl, hw, Or.inr ⟨input, Or.inr rfl⟩⟩)⟩
      · rw [if_neg hl]
        exact ⟨_, hwcalls, Or.inr (Or.inr ⟨w, [], by simp, hw, Or.inl rfl⟩)⟩
  · rw [if_neg hh]
    simp only []
    rcases status_calls s.faceDetector (env.backendStatus (s.framesCounter + 1)) with hst | hst
    · exact ⟨[], by rw [hst.2]; simp, Or.inl rfl⟩
    · exact ⟨_, hst.2, Or.inr (Or.inl ⟨_, rfl⟩)⟩

theorem readNext_faceDetector (env : Env) (s : LoopState) :
    (readNext env s).faceDetector = s.faceDetector := by
  unfold readNext
  split <;> rfl

theorem trackPhase_faceDetector (env : Env) (s : LoopState) :
    (trackPhase env s).faceDetector = s.faceDetector := by
  unfold trackPhase
  split
  · split <;> rfl
  · rfl

theorem advance_faceDetector (env : Env) (s : LoopState) :
    (advance env s).faceDetector = s.faceDetector := by
  unfold advance
  split
  · rfl
  · split <;> rfl

theorem loopBody_calls (env : Env) (s : LoopState) :
    ∃ evs, (loopBody env s).faceDetector.calls = s.faceDetector.calls ++ evs ∧
      iterationCalls evs := by
  unfold loopBody
  rw [advance_faceDetector, trackPhase_faceDetector, readNext_faceDetector]
  exact harvestOrBuffer_calls env s

theorem slotRespected_append (l1 l2 : List BackendCall) (h2 : ∀ b, slotRespected b l2 = true) :
    ∀ b, slotRespected b l1 = true → slotRespected b (l1 ++ l2) = true := by
  induction l1 with
  | nil => intro b _; simpa using h2 b
  | cons c rest ih =>
    intro b h
    cases c with
    | StartAsync input =>
      simp only [List.cons_append, slotRespected, Bool.and_eq_true] at h ⊢
      exact ⟨h.1, ih _ h.2⟩
    | Infer input =>
      simp only [List.cons_append, slotRespected, Bool.and_eq_true] at h ⊢
      exact ⟨h.1, ih _ h.2⟩
    | WaitStatusOnly answer =>
      cases answer <;> simp only [List.cons_append, slotRespected] at h ⊢ <;> exact ih _ h
    | WaitResultReady =>
      simp only [List.cons_append, slotRespected] at h ⊢
      exact ih _ h

theorem iterationCalls_slot (evs : List BackendCall) (h : iterationCalls evs) :
    ∀ b, slotRespected b evs = true := by
  intro b
  rcases h with rfl | ⟨answer, rfl⟩ | ⟨w, s, rfl, hw, hs⟩
  · rfl
  · cases answer <;> rfl
  · rcases hw with rfl | rfl <;> rcases hs with rfl | ⟨input, rfl | rfl⟩ <;> rfl

theorem iterationCalls_start (evs : List BackendCall) (h : iterationCalls evs) :
    ∀ pre post input, evs = pre ++ BackendCall.StartAsync input :: post →
      BackendCall.WaitStatusOnly StatusCode.OK ∈ pre := by
  intro pre post input he
  rcases h with rfl | ⟨answer, rfl⟩ | ⟨w, s, rfl, _, _⟩
  · simp at he
  · cases pre with
    | nil => simp at he
    | cons c pre => simp at he
  · cases pre with
    | nil => simp at he
    | cons c pre =>
      simp only [List.cons_append, List.cons.injEq] at he
      rw [← he.1]
      exact List.mem_cons_self _ _

theorem initState_calls (env : Env) (frame : Mat) :
    slotRespected false (initState env frame).faceDetector.calls = true := by
  have h := submitRequest_calls env.infer
    ((FaceDetector.mk0 env.FLAGS_m env.FLAGS_async env.FLAGS_t env.FLAGS_r
      env.maxProposalCount env.objectSize env.labels).enabledState.enqueue frame)
  rw [enqueue_calls, enabledState_calls] at h
  have hc : (initState env frame).faceDetector.calls =
      (((FaceDetector.mk0 env.FLAGS_m env.FLAGS_async env.FLAGS_t env.FLAGS_r
        env.maxProposalCount env.objectSize env.labels).enabledState.enqueue frame).submitRequest
          env.infer).calls := rfl
  rw [hc]
  rcases h with h | ⟨input, h | h⟩ <;> rw [h] <;> rfl

/-- C7. Single outstanding request. In every run of `main` (any video, any backend
status answers) no request is started while an earlier one is in flight, a request being
in flight from its start until the backend answers `OK` to a status query; and in every
loop iteration a started request is preceded, in the same iteration, by a status query
answered `OK`. -/
theorem single_outstanding_request (env : Env) (s0 : LoopState)
    (h0 : mainInit env = some s0) (n : Nat) :
    slotRespected false (runLoop env n s0).faceDetector.calls = true ∧
    ∀ s : LoopState, ∃ evs,
      (loopBody env s).faceDetector.calls = s.faceDetector.calls ++ evs ∧
      (∀ busy, slotRespected busy evs = true) ∧
      ∀ pre post input, evs = pre ++ BackendCall.StartAsync input :: post →
        BackendCall.WaitStatusOnly StatusCode.OK ∈ pre := by
  constructor
  · induction n with
    | zero =>
      unfold mainInit at h0
      split at h0
      · exact absurd h0 (by simp)
      · split at h0
        · exact absurd h0 (by simp)
        · rename_i frame _
          have : s0 = initState env frame := by
            simp only [Option.some.injEq] at h0; exact h0.symm
          subst this
          exact initState_calls env frame
    | succ n ih =>
      show slotRespected false (loopStep env (runLoop env n s0)).faceDetector.calls = true
      unfold loopStep
      split
      · exact ih
      · obtain ⟨evs, he, hs⟩ := loopBody_calls env (runLoop env n s0)
        rw [he]
        exact slotRespected_append _ _ (iterationCalls_slot evs hs) _ ih
  · intro s
    obtain ⟨evs, he, hs⟩ := loopBody_calls env s
    exact ⟨evs, he, iterationCalls_slot evs hs, iterationCalls_start evs hs⟩

/-- Witness for C7: a 100-frame run with three started requests. -/
theorem single_outstanding_request_witness :
    mainInit envFaceThenNone = some (initState envFaceThenNone (frameOf 1)) ∧
    slotRespected false
      (runLoop envFaceThenNone 61 (initState envFaceThenNone (frameOf 1))).faceDetector.calls
        = true ∧
    (runLoop envFaceThenNone 61 (initState envFaceThenNone (frameOf 1))).faceDetector.calls.countP
      isStartAsync = 3 :=
  ⟨by decide!,
   (single_outstanding_request envFaceThenNone (initState envFaceThenNone (frameOf 1))
      (by decide!) 61).1,
   by decide!⟩

/-! ### Runs of the loop on concrete videos -/

/-- C8 (the code at the failing input). In a run in which the network finds no face,
iteration 30 takes the harvest branch with an empty detection set and leaves the 29
buffered frames in `frame_queue`; the queue holds 58 frames after iteration 60 and 87
after iteration 90. -/
theorem frame_queue_not_emptied :
    (mainRun envNoFace 29).map (harvests envNoFace) = some true ∧
    (mainRun envNoFace 30).map
      (fun s => (s.framesCounter, s.prev_detection_results, s.frame_queue.length))
        = some (30, [], 29) ∧
    (mainRun envNoFace 60).map (fun s => (s.framesCounter, s.frame_queue.length))
        = some (60, 58) ∧
    (mainRun envNoFace 90).map (fun s => (s.framesCounter, s.frame_queue.length))
        = some (90, 87) := by
  refine ⟨by decide!, by decide!, by decide!, by decide!⟩

/-- C9 (the code at the failing input). With a face on the first frame only, iteration
60 harvests an empty detection set: `prev_detection_results` is empty but
`feature_points` still holds the point tracked since iteration 30, and the tracking
pass of iteration 61 moves that point. -/
theorem empty_detection_keeps_points :
    (mainRun envFaceThenNone 59).map (harvests envFaceThenNone) = some true ∧
    (mainRun envFaceThenNone 60).map
      (fun s => (s.faceDetector.results, s.prev_detection_results, s.feature_points))
        = some ([], [], [⟨79, 20⟩]) ∧
    (mainRun envFaceThenNone 61).map (fun s => (s.prev_detection_results, s.feature_points))
        = some ([], [⟨80, 20⟩]) := by
  refine ⟨by decide!, by decide!, by decide!⟩

/-- C10 (the code at the failing input). In a 60-frame video iteration 60 is the last
one and takes the harvest branch: the results fetched belong to the request enqueued
with frame 31, but `prev_detect_frame` remains frame 1, and the feature point is the
corner of frame 1. At the harvest of iteration 30 the two frames agree. -/
theorem last_frame_harvest_stale_frame :
    (mainRun envShortVideo 29).map
      (fun s => (harvests envShortVideo s, s.frameReadStatus,
        s.faceDetector.request.map (fun rq => rq.inputBlob),
        (loopBody envShortVideo s).prev_detect_frame))
        = some (true, true, some (frameOf 1), frameOf 1) ∧
    (mainRun envShortVideo 59).map
      (fun s => (harvests envShortVideo s, s.frameReadStatus,
        s.faceDetector.request.map (fun rq => rq.inputBlob),
        (loopBody envShortVideo s).prev_detect_frame))
        = some (true, false, some (frameOf 31), frameOf 1) ∧
    (mainRun envShortVideo 60).map
      (fun s => (s.finished, s.prev_detection_results.length, s.feature_points))
        = some (true, 1, [⟨1, 1⟩]) := by
  refine ⟨by decide!, by decide!, by decide!⟩

/-! ### Loading the network -/

theorem read_ok_valid (net : NetworkDesc) (d d' : FaceDetector)
    (h : d.read net = Except.ok d') :
    net.numInputs = 1 ∧ net.numOutputs = 1 ∧ net.outputDims.length = 4 ∧
    ∃ dim3, net.outputDims[3]? = some dim3 ∧ toInt32 dim3 = 7 := by
  by_cases h1 : net.numInputs = 1
  swap
  · simp [FaceDetector.read, h1] at h
  by_cases h2 : net.numOutputs = 1
  swap
  · simp [FaceDetector.read, h1, h2] at h
  by_cases h3 : net.outputLayerType = "DetectionOutput"
  swap
  · simp [FaceDetector.read, h1, h2, h3] at h
  cases hc : net.num_classes with
  | none => simp [FaceDetector.read, h1, h2, h3, hc] at h
  | some c =>
    cases hd2 : net.outputDims[2]? with
    | none => simp [FaceDetector.read, dimAt, h1, h2, h3, hc, hd2] at h
    | some m =>
      cases hd3 : net.outputDims[3]? with
      | none => simp [FaceDetector.read, dimAt, h1, h2, h3, hc, hd2, hd3] at h
      | some o =>
        by_cases h7 : toInt32 o = 7
        swap
        · simp [FaceDetector.read, dimAt, h1, h2, h3, hc, hd2, hd3, h7] at h
        by_cases h4 : net.outputDims.length = 4
        swap
        · simp [FaceDetector.read, dimAt, h1, h2, h3, hc, hd2, hd3, h7, h4] at h
        exact ⟨h1, h2, h4, o, rfl, h7⟩

/-- C11 (the code at the failing input). For a network with one input and one
`DetectionOutput` output whose output tensor has two dimensions, `read` reads
`outputDims[2]` beyond the end of the dimension vector before any check of the
dimensions; with three dimensions it reads `outputDims[3]` beyond the end; with the five
dimensions 1, 1, 7, 5, 7 it reports a wrong last dimension although the last dimension
is 7. A tensor of dimensions 1, 1, 200, 7 is accepted. -/
theorem read_indexes_before_rank_check :
    readFailure (freshDetector.read (netWithDims [1, 7])) = some (ReadError.outOfRangeDim 2) ∧
    readFailure (freshDetector.read (netWithDims [1, 1, 7])) = some (ReadError.outOfRangeDim 3) ∧
    readFailure (freshDetector.read (netWithDims [1, 1, 7, 5, 7]))
      = some ReadError.lastDimensionNot7 ∧
    readFailure (freshDetector.read (netWithDims [1, 1, 200, 7])) = none := by
  refine ⟨by decide, by decide, by decide, by decide⟩

/-! ### The box update of the tracking step -/

theorem fl32_one : fl32 1 = 1 := by decide!

theorem meanPos_single (p : Point2f) (hx : fl32 p.x = p.x) (hy : fl32 p.y = p.y) :
    meanPos [p] = p := by
  unfold meanPos
  simp [fl32_one, hx, hy]

/-- C12 (counterexample). With zero motion (every forward and backward estimate equals
the point) and one point at (20, 20), the cadence pass and the per-frame pass both move
the boxes at (0, 5) and (30, 20), of size 60 x 60, to (-10, -10): no box keeps its
position, and the two boxes end at the same position. -/
theorem box_update_not_a_shift :
    envNoFace.calcOpticalFlowPyrLK (frameOf 1) (frameOf 2) [⟨20, 20⟩] 0 = [⟨20, 20⟩] ∧
    trackQueuePair envNoFace (frameOf 1) (frameOf 2) ([⟨20, 20⟩], [faceResult, faceResult2])
      = ([⟨20, 20⟩],
         [{ faceResult with location := { x := -10, y := -10, width := 60, height := 60 } },
          { faceResult2 with location := { x := -10, y := -10, width := 60, height := 60 } }]) ∧
    trackFrame envNoFace (frameOf 1) (frameOf 2) ([⟨20, 20⟩], [faceResult, faceResult2])
      = ([⟨20, 20⟩],
         [{ faceResult with location := { x := -10, y := -10, width := 60, height := 60 } },
          { faceResult2 with location := { x := -10, y := -10, width := 60, height := 60 } }]) ∧
    faceResult.location ≠ faceResult2.location := by
  refine ⟨by decide!, by decide!, by decide!, by decide!⟩

/-- C12 (amended). In a tracking step whose surviving point set is not empty, every
tracked box keeps its width, height, label and confidence and is centred on the mean
position `mean_pos` of a point set, the same for every box: its corner becomes
`mean_pos` minus half the box size, computed in binary32 and truncated. `mean_pos` is
accumulated in binary32 from (0, 0) by `mean_pos += point / float(n)`: in the cadence
pass over the surviving forward-estimated points, in the per-frame pass over the points
of frame A before the filter. The mean of a single binary32 point is that point. No
displacement enters the update. -/
theorem box_update_mean_position (env : Env) (a b : Mat) (pts : List Point2f)
    (boxes : List Result) :
    ((trackQueuePair env a b (pts, boxes)).1 ≠ [] →
      (trackQueuePair env a b (pts, boxes)).2 =
        boxes.map (moveBox (meanPos (trackQueuePair env a b (pts, boxes)).1))) ∧
    ((trackFrame env a b (pts, boxes)).1 ≠ [] →
      (trackFrame env a b (pts, boxes)).2 = boxes.map (moveBox (meanPos pts))) ∧
    (∀ points : List Point2f,
      meanPos points =
        points.foldl
          (fun mean_pos point =>
            { x := fl32 (mean_pos.x + fl32 (point.x / fl32 (points.length : ℚ))),
              y := fl32 (mean_pos.y + fl32 (point.y / fl32 (points.length : ℚ))) })
          ⟨0, 0⟩) ∧
    (∀ p : Point2f, fl32 p.x = p.x → fl32 p.y = p.y → meanPos [p] = p) ∧
    (∀ (m : Point2f) (box : Result),
      (moveBox m box).location.width = box.location.width ∧
      (moveBox m box).location.height = box.location.height ∧
      (moveBox m box).label = box.label ∧
      (moveBox m box).confidence = box.confidence ∧
      (moveBox m box).location.x =
        truncQ (fl32 (m.x - fl32 ((Int.tdiv box.location.width 2 : Int) : ℚ))) ∧
      (moveBox m box).location.y =
        truncQ (fl32 (m.y - fl32 ((Int.tdiv box.location.height 2 : Int) : ℚ)))) := by
  refine ⟨?_, ?_, fun _ => rfl, meanPos_single, ?_⟩
  · intro hq
    have hpos : pts.length > 0 := by
      by_contra hp
      apply hq
      have : pts = [] := List.length_eq_zero.mp (by omega)
      subst this
      simp [trackQueuePair]
    unfold trackQueuePair
    simp only [hpos, if_true]
  · intro hf
    have hpos : pts.length > 0 := by
      by_contra hp
      apply hf
      have : pts = [] := List.length_eq_zero.mp (by omega)
      subst this
      simp [trackFrame]
    unfold trackFrame
    simp only [hpos, if_true]
  · intro m box
    exact ⟨rfl, rfl, rfl, rfl, rfl, rfl⟩

/-- Witness for the amended C12: the cadence pass on one still point and two boxes; and
the per-frame pass on five still points with x = 31, 43, 55, 67, 79, whose mean
accumulates to 55 - 2^-18, so that a box of width 60 gets x = 24. -/
theorem box_update_mean_position_witness :
    (trackQueuePair envNoFace (frameOf 1) (frameOf 2)
      ([⟨20, 20⟩], [faceResult, faceResult2])).1 ≠ [] ∧
    (trackQueuePair envNoFace (frameOf 1) (frameOf 2) ([⟨20, 20⟩], [faceResult, faceResult2])).2
      = [faceResult, faceResult2].map (moveBox ⟨20, 20⟩) ∧
    meanPos [⟨31, 40⟩, ⟨43, 40⟩, ⟨55, 40⟩, ⟨67, 40⟩, ⟨79, 40⟩] = ⟨55 - 1 / 2 ^ 18, 40⟩ ∧
    (trackFrame envNoFace (frameOf 1) (frameOf 2)
      ([⟨31, 40⟩, ⟨43, 40⟩, ⟨55, 40⟩, ⟨67, 40⟩, ⟨79, 40⟩], [faceResult])).2
      = [{ faceResult with location := { x := 24, y := 10, width := 60, height := 60 } }] :=
  ⟨by decide!,
   ((box_update_mean_position envNoFace (frameOf 1) (frameOf 2) [⟨20, 20⟩]
      [faceResult, faceResult2]).1 (by decide!)).trans (by decide!),
   by decide!, by decide!⟩

/-- C13 (the code at the failing input). With a face detected at (0, 5), one corner at
(40, 40) and a backward flow that drifts by two pixels, no point survives the first
frame pair of the cadence pass of iteration 30: the point set becomes empty and the box
is moved to (-30, -30). -/
theorem degenerate_pair_moves_box :
    goodPoints envFaceDrift.absOverload [⟨40, 40⟩]
      (envFaceDrift.calcOpticalFlowPyrLK (frameOf 1) (frameOf 2) [⟨40, 40⟩] 0)
      (envFaceDrift.calcOpticalFlowPyrLK (frameOf 2) (frameOf 1)
        (envFaceDrift.calcOpticalFlowPyrLK (frameOf 1) (frameOf 2) [⟨40, 40⟩] 0) 0) = [] ∧
    trackQueuePair envFaceDrift (frameOf 1) (frameOf 2) ([⟨40, 40⟩], [faceResult])
      = ([], [{ faceResult with
                location := { x := -30, y := -30, width := 60, height := 60 } }]) ∧
    (mainRun envFaceDrift 29).map
      (fun s => (harvests envFaceDrift s,
        (s.faceDetector.status StatusCode.OK).2.wait.fetchResults.results))
        = some (true, [faceResult]) ∧
    (mainRun envFaceDrift 30).map (fun s => (s.feature_points, s.prev_detection_results))
      = some ([], [{ faceResult with
                location := { x := -30, y := -30, width := 60, height := 60 } }]) := by
  refine ⟨by decide!, by decide!, by decide!, by decide!⟩

/-! ### Iterations that do not harvest -/

theorem harvestOrBuffer_of_not_harvest (env : Env) (s : LoopState)
    (hnh : harvests env s = false) :
    harvestOrBuffer env s =
      { s with framesCounter := s.framesCounter + 1, isLastFrame := !s.frameReadStatus,
               faceDetector := (s.faceDetector.status (env.backendStatus (s.framesCounter + 1))).2,
               frame_queue := s.frame_queue ++ [s.frame] } := by
  unfold harvests at hnh
  have h := of_decide_eq_false hnh
  unfold harvestOrBuffer
  simp only []
  rw [if_neg h]

theorem readNext_fields (env : Env) (s : LoopState) :
    (readNext env s).framesCounter = s.framesCounter ∧
    (readNext env s).prev_frame = s.prev_frame ∧
    (readNext env s).frame = s.frame ∧
    (readNext env s).frame_queue = s.frame_queue ∧
    (readNext env s).feature_points = s.feature_points ∧
    (readNext env s).prev_detection_results = s.prev_detection_results := by
  unfold readNext
  split <;> exact ⟨rfl, rfl, rfl, rfl, rfl, rfl⟩

theorem advance_fields (env : Env) (s : LoopState) :
    (advance env s).frame_queue = s.frame_queue ∧
    (advance env s).feature_points = s.feature_points ∧
    (advance env s).prev_detection_results = s.prev_detection_results := by
  unfold advance
  split
  · exact ⟨rfl, rfl, rfl⟩
  · split <;> exact ⟨rfl, rfl, rfl⟩

theorem trackPhase_off_cadence (env : Env) (s : LoopState) (hc : s.framesCounter % 30 ≠ 0) :
    (trackPhase env s).frame_queue = s.frame_queue ∧
    ((trackPhase env s).feature_points, (trackPhase env s).prev_detection_results)
      = trackFrame env s.prev_frame s.frame (s.feature_points, s.prev_detection_results) := by
  unfold trackPhase
  rw [if_neg hc]
  exact ⟨rfl, rfl⟩

/-- C14 (counterexample). In the run with a face on the first frame and motion to the
right, iterations 31 and 32 are not harvests; iteration 31 changes `feature_points`
and iteration 32 changes `prev_detection_results`. -/
theorem non_harvest_iteration_tracks :
    (mainRun envFaceThenNone 30).map
      (fun s => (harvests envFaceThenNone s, s.feature_points)) = some (false, [⟨50, 20⟩]) ∧
    (mainRun envFaceThenNone 31).map
      (fun s => (harvests envFaceThenNone s, s.feature_points)) = some (false, [⟨51, 20⟩]) ∧
    (mainRun envFaceThenNone 31).map (fun s => s.prev_detection_results)
      = some [{ faceResult with location := { x := 20, y := -10, width := 60, height := 60 } }] ∧
    (mainRun envFaceThenNone 32).map (fun s => s.prev_detection_results)
      = some [{ faceResult with location := { x := 21, y := -10, width := 60, height := 60 } }] := by
  refine ⟨by decide!, by decide!, by decide!, by decide!⟩

/-- C14 (amended). In a loop iteration that is not a harvest no request is submitted:
the only backend call is at most the status query. If moreover `framesCounter` is not
a multiple of 30, the current frame is appended to `frame_queue` and the per-frame
tracking pass runs on `prev_frame` and `frame`: `feature_points` and
`prev_detection_results` become its result, and they are the same after the iteration
as before it when `feature_points` is empty. -/
theorem non_harvest_iteration (env : Env) (s : LoopState) (hnh : harvests env s = false) :
    (∃ evs, (loopBody env s).faceDetector.calls = s.faceDetector.calls ++ evs ∧
      (evs = [] ∨ ∃ answer, evs = [BackendCall.WaitStatusOnly answer])) ∧
    ((s.framesCounter + 1) % 30 ≠ 0 →
      (loopBody env s).frame_queue = s.frame_queue ++ [s.frame] ∧
      ((loopBody env s).feature_points, (loopBody env s).prev_detection_results)
        = trackFrame env s.prev_frame s.frame (s.feature_points, s.prev_detection_results) ∧
      (s.feature_points = [] →
        (loopBody env s).feature_points = s.feature_points ∧
        (loopBody env s).prev_detection_results = s.prev_detection_results)) := by
  have hb := harvestOrBuffer_of_not_harvest env s hnh
  constructor
  · unfold loopBody
    rw [advance_faceDetector, trackPhase_faceDetector, readNext_faceDetector, hb]
    rcases status_calls s.faceDetector (env.backendStatus (s.framesCounter + 1)) with h | h
    · exact ⟨[], by simp [h.2], Or.inl rfl⟩
    · exact ⟨_, h.2, Or.inr ⟨_, rfl⟩⟩
  · intro hc
    obtain ⟨hr1, hr2, hr3, hr4, hr5, hr6⟩ := readNext_fields env (harvestOrBuffer env s)
    have hc' : (readNext env (harvestOrBuffer env s)).framesCounter % 30 ≠ 0 := by
      rw [hr1, hb]; exact hc
    obtain ⟨ht1, ht2⟩ := trackPhase_off_cadence env _ hc'
    obtain ⟨ha1, ha2, ha3⟩ := advance_fields env (trackPhase env (readNext env (harvestOrBuffer env s)))
    have hq : (loopBody env s).frame_queue = s.frame_queue ++ [s.frame] := by
      unfold loopBody
      rw [ha1, ht1, hr4, hb]
    have ht : ((loopBody env s).feature_points, (loopBody env s).prev_detection_results)
        = trackFrame env s.prev_frame s.frame (s.feature_points, s.prev_detection_results) := by
      unfold loopBody
      rw [ha2, ha3, ht2, hr2, hr3, hr5, hr6, hb]
    refine ⟨hq, ht, ?_⟩
    intro he
    have h2 : trackFrame env s.prev_frame s.frame (s.feature_points, s.prev_detection_results)
        = (s.feature_points, s.prev_detection_results) := by
      unfold trackFrame
      simp [he]
    rw [h2] at ht
    exact ⟨congrArg Prod.fst ht, congrArg Prod.snd ht⟩

/-- Witness for the amended C14: the first iteration of a run. -/
theorem non_harvest_iteration_witness :
    harvests envFaceThenNone (initState envFaceThenNone (frameOf 1)) = false ∧
    (loopBody envFaceThenNone (initState envFaceThenNone (frameOf 1))).frame_queue
      = [frameOf 2] :=
  ⟨by decide!,
   ((non_harvest_iteration envFaceThenNone (initState envFaceThenNone (frameOf 1))
      (by decide!)).2 (by decide!)).1.trans (by decide!)⟩

/-! ### Synchronous mode -/

theorem enabledState_sync_fields (d : FaceDetector) :
    d.enabledState.isAsync = d.isAsync ∧ d.enabledState.results = d.results ∧
    d.enabledState.resultsFetched = d.resultsFetched := by
  unfold FaceDetector.enabledState
  split <;> exact ⟨rfl, rfl, rfl⟩

theorem status_sync_fields (d : FaceDetector) (answer : StatusCode) :
    (d.status answer).2.isAsync = d.isAsync ∧ (d.status answer).2.results = d.results ∧
    (d.status answer).2.resultsFetched = d.resultsFetched := by
  obtain ⟨h1, h2, h3⟩ := enabledState_sync_fields d
  unfold FaceDetector.status
  simp only []
  split <;> exact ⟨h1, h2, h3⟩

theorem status_of_sync (d : FaceDetector) (answer : StatusCode) (hs : d.isAsync = false) :
    (d.status answer).1 = StatusCode.GENERAL_ERROR := by
  unfold FaceDetector.status
  simp [(enabledState_sync_fields d).1, hs]

theorem enqueue_sync_fields (d : FaceDetector) (frame : Mat) :
    (d.enqueue frame).isAsync = d.isAsync ∧ (d.enqueue frame).results = d.results ∧
    (d.enqueue frame).resultsFetched = d.resultsFetched := by
  obtain ⟨h1, h2, h3⟩ := enabledState_sync_fields d
  unfold FaceDetector.enqueue
  simp only []
  split <;> exact ⟨h1, h2, h3⟩

theorem base_submitRequest_sync_fields (infer : Mat → List ℚ) (d : FaceDetector) :
    (BaseDetector.submitRequest infer d).isAsync = d.isAsync ∧
    (BaseDetector.submitRequest infer d).results = d.results ∧
    (BaseDetector.submitRequest infer d).resultsFetched = d.resultsFetched := by
  obtain ⟨h1, h2, h3⟩ := enabledState_sync_fields d
  unfold BaseDetector.submitRequest
  simp only []
  split
  · exact ⟨h1, h2, h3⟩
  · split
    · exact ⟨h1, h2, h3⟩
    · split <;> exact ⟨h1, h2, h3⟩

theorem submitRequest_sync_fields (infer : Mat → List ℚ) (d : FaceDetector)
    (hr : d.results = []) (hf : d.resultsFetched = false) :
    (d.submitRequest infer).isAsync = d.isAsync ∧ (d.submitRequest infer).results = [] ∧
    (d.submitRequest infer).resultsFetched = false := by
  unfold FaceDetector.submitRequest
  split
  · exact ⟨rfl, hr, hf⟩
  · exact base_submitRequest_sync_fields infer _

theorem initState_syncInvariant (env : Env) (frame : Mat) (hs : env.FLAGS_async = false) :
    syncInvariant (initState env frame) := by
  have hd : (initState env frame).faceDetector =
      ((FaceDetector.mk0 env.FLAGS_m env.FLAGS_async env.FLAGS_t env.FLAGS_r
        env.maxProposalCount env.objectSize env.labels).enabledState.enqueue frame).submitRequest
          env.infer := rfl
  obtain ⟨e1, e2, e3⟩ := enabledState_sync_fields
    (FaceDetector.mk0 env.FLAGS_m env.FLAGS_async env.FLAGS_t env.FLAGS_r
      env.maxProposalCount env.objectSize env.labels)
  obtain ⟨q1, q2, q3⟩ := enqueue_sync_fields
    (FaceDetector.mk0 env.FLAGS_m env.FLAGS_async env.FLAGS_t env.FLAGS_r
      env.maxProposalCount env.objectSize env.labels).enabledState frame
  obtain ⟨s1, s2, s3⟩ := submitRequest_sync_fields env.infer _
    (q2.trans e2) (q3.trans e3)
  refine ⟨?_, ?_, ?_, rfl, rfl⟩
  · rw [hd, s1, q1, e1]; exact hs
  · rw [hd, s2]
  · rw [hd, s3]

theorem harvests_of_sync (env : Env) (s : LoopState) (hs : s.faceDetector.isAsync = false) :
    harvests env s = false := by
  unfold harvests
  rw [status_of_sync _ _ hs]
  simp

theorem loopBody_syncInvariant (env : Env) (s : LoopState) (h : syncInvariant s) :
    syncInvariant (loopBody env s) := by
  obtain ⟨hs, hr, hf, hp, hq⟩ := h
  have hnh := harvests_of_sync env s hs
  have hb := harvestOrBuffer_of_not_harvest env s hnh
  obtain ⟨t1, t2, t3⟩ := status_sync_fields s.faceDetector (env.backendStatus (s.framesCounter + 1))
  have hfd : (loopBody env s).faceDetector =
      (s.faceDetector.status (env.backendStatus (s.framesCounter + 1))).2 := by
    unfold loopBody
    rw [advance_faceDetector, trackPhase_faceDetector, readNext_faceDetector, hb]
  obtain ⟨_, _, _, _, hr5, hr6⟩ := readNext_fields env (harvestOrBuffer env s)
  obtain ⟨_, ha2, ha3⟩ := advance_fields env (trackPhase env (readNext env (harvestOrBuffer env s)))
  have hp1 : (readNext env (harvestOrBuffer env s)).prev_detection_results = [] := by
    rw [hr6, hb]; exact hp
  have hq1 : (readNext env (harvestOrBuffer env s)).feature_points = [] := by
    rw [hr5, hb]; exact hq
  have htp : (trackPhase env (readNext env (harvestOrBuffer env s))).feature_points = [] ∧
      (trackPhase env (readNext env (harvestOrBuffer env s))).prev_detection_results = [] := by
    unfold trackPhase
    split
    · rw [if_neg (by rw [hp1]; simp)]
      exact ⟨hq1, hp1⟩
    · simp only [trackFrame, hq1, hp1]
      exact ⟨rfl, rfl⟩
  refine ⟨?_, ?_, ?_, ?_, ?_⟩
  · rw [hfd, t1]; exact hs
  · rw [hfd, t2]; exact hr
  · rw [hfd, t3]; exact hf
  · unfold loopBody; rw [ha3]; exact htp.2
  · unfold loopBody; rw [ha2]; exact htp.1

/-- C15. Synchronous mode never harvests. For a detector with `isAsync == false`,
`status` returns `GENERAL_ERROR` whatever the backend would answer; so in every run of
`main` without `-async`, at every iteration the harvest branch is not taken,
`fetchResults` has not run (`resultsFetched` is false and `results` is empty), and
`prev_detection_results` and `feature_points` are empty. -/
theorem sync_mode_never_harvests (env : Env) (s0 : LoopState)
    (hs : env.FLAGS_async = false) (h0 : mainInit env = some s0) (n : Nat) :
    (∀ (d : FaceDetector) (answer : StatusCode), d.isAsync = false →
      (d.status answer).1 = StatusCode.GENERAL_ERROR) ∧
    (runLoop env n s0).faceDetector.isAsync = false ∧
    harvests env (runLoop env n s0) = false ∧
    (runLoop env n s0).faceDetector.resultsFetched = false ∧
    (runLoop env n s0).faceDetector.results = [] ∧
    (runLoop env n s0).prev_detection_results = [] ∧
    (runLoop env n s0).feature_points = [] := by
  have hinv : syncInvariant (runLoop env n s0) := by
    induction n with
    | zero =>
      unfold mainInit at h0
      split at h0
      · exact absurd h0 (by simp)
      · split at h0
        · exact absurd h0 (by simp)
        · rename_i frame _
          have : s0 = initState env frame := by
            simp only [Option.some.injEq] at h0; exact h0.symm
          subst this
          exact initState_syncInvariant env frame hs
    | succ n ih =>
      show syncInvariant (loopStep env (runLoop env n s0))
      unfold loopStep
      split
      · exact ih
      · exact loopBody_syncInvariant env _ ih
  obtain ⟨h1, h2, h3, h4, h5⟩ := hinv
  exact ⟨fun d answer hd => status_of_sync d answer hd, h1, harvests_of_sync env _ h1,
    h3, h2, h4, h5⟩

/-- Witness for C15: 61 iterations of a synchronous run on a video with a face. -/
theorem sync_mode_never_harvests_witness :
    envSync.FLAGS_async = false ∧
    mainInit envSync = some (initState envSync (frameOf 1)) ∧
    (runLoop envSync 61 (initState envSync (frameOf 1))).framesCounter = 61 ∧
    (runLoop envSync 61 (initState envSync (frameOf 1))).prev_detection_results = [] :=
  ⟨by decide, by decide!, by decide!,
   (sync_mode_never_harvests envSync (initState envSync (frameOf 1)) (by decide) (by decide!)
      61).2.2.2.2.2.1⟩

end FaceTracking
